import Mathlib

/-!
Verification development for the ZIMRA / Fiscal Harmony fiscalization
module (Odoo add-on: `zimra_config.py`, `zimra_tax_mapping.py`,
`zimra_currency_mapping.py`, `pos_order.py`, `account_move.py`).

Shallow embedding conventions:
* Python strings are Lean `String`s; all string algorithms are re-implemented
  on `List Char` so that every definition kernel-evaluates.
* Monetary amounts are exact rationals (`ℚ`).  The source formats amounts
  into fixed-decimal strings when building payloads; the amounts are kept as
  rationals here and the float-formatting step is not modelled (no claim
  depends on the formatted digits).
* Python `None` is `Option.none`; an Odoo false-y `Char`/`Text` field is
  `none`.  JSON `null` and an absent key are both modelled as `none`.
* The ORM is modelled by explicit record updates; the audit-log rows
  (`zimra.invoice`) and notification dictionaries are modelled only as far
  as the claims inspect them.
* The HTTP layer is modelled by an environment that supplies the parsed
  response, plus a count of authority-facing calls the code path performs.
-/

namespace ZimraSpec

/-- Truthiness of a Python string-or-None value (`None` and `""` are falsy). -/
def pyTruthy : Option String → Bool
  | none => false
  | some s => !(s == "")

/-- Python `a or b` on strings (left operand kept when truthy). -/
def pyOrS (a b : String) : String := if a == "" then b else a

/-- Python `x or None` on an optional string: empty collapses to `None`. -/
def pyOrNone (x : Option String) : Option String :=
  match x with
  | none => none
  | some s => if s == "" then none else some s

/-- Python `f"{v}"` of a string-or-None value: `None` renders as `"None"`. -/
def pyStr : Option String → String
  | none => "None"
  | some s => s

/-! ## Character-list string utilities (Python `str` methods re-implemented) -/

/-- `str.lower()` (ASCII case fold, which covers every string the module uses). -/
def lowerL (cs : List Char) : List Char := cs.map Char.toLower

/-- `str.strip()`: drop leading and trailing whitespace. -/
def trimL (cs : List Char) : List Char :=
  ((cs.dropWhile Char.isWhitespace).reverse.dropWhile Char.isWhitespace).reverse

/-- Python `needle in hay` substring test. -/
def isInfixL (needle : List Char) : List Char → Bool
  | [] => needle.isEmpty
  | c :: t => needle.isPrefixOf (c :: t) || isInfixL needle t

/-- Substring test on `String`s (`needle in hay` in Python). -/
def hasSub (hay needle : String) : Bool := isInfixL needle.data hay.data

/-- `str.lower().strip()` as used by `normalize_tax_type`. -/
def lowerStrip (s : String) : String := ⟨trimL (lowerL s.data)⟩

/-- `str.strip()` on `String`. -/
def strip (s : String) : String := ⟨trimL s.data⟩

/-- `str.startswith` on `String`. -/
def startsWithS (s pre : String) : Bool := pre.data.isPrefixOf s.data

/-- `str.endswith` on `String`. -/
def endsWithS (s suf : String) : Bool := suf.data.isSuffixOf s.data

/-- A regex word character (`\w`): letter, digit or underscore. -/
def isWordChar (c : Char) : Bool := c.isAlphanum || c == '_'

/-! ## Tax-name normalization (`zimra_tax_mapping.ZimraTaxMapping.normalize_tax_type`) -/

/-- The literal lookup table of `normalize_tax_type` (exact-match stage). -/
def taxNameTable : List (String × String) :=
  [("Standard rated 15%", "Standard rated 15%"),
   ("Standard rated 15.5%", "Standard rated 15%"),
   ("Standard rate 15%", "Standard rated 15%"),
   ("Standard rate 15.5%", "Standard rated 15%"),
   ("Zero rate 0%", "Zero rated 0%"),
   ("Zero rated 0%", "Zero rated 0%"),
   ("Zero rate", "Zero rated 0%"),
   ("Zero rated", "Zero rated 0%"),
   ("Exempt", "Exempt"),
   ("Tax Exempt", "Exempt"),
   ("Exempted", "Exempt"),
   ("Non-VAT Withholding Tax", "Non-VAT Withholding Tax"),
   ("Withholding Tax", "Non-VAT Withholding Tax"),
   ("Non VAT Withholding Tax", "Non-VAT Withholding Tax")]

/-- `mapping.get(api_tax_name)`: exact-key lookup in the table. -/
def exactTaxMatch (s : String) : Option String :=
  (taxNameTable.find? (fun p => p.1 == s)).map (fun p => p.2)

/-- The case-insensitive pass: first table key whose `lower().strip()` equals
the input's `lower().strip()`. -/
def ciTaxMatch (s : String) : Option String :=
  (taxNameTable.find? (fun p => lowerStrip p.1 == lowerStrip s)).map (fun p => p.2)

/-- The four selection values of `zimra_tax_type`. -/
def validTaxTypes : List String :=
  ["Standard rated 15%", "Zero rated 0%", "Exempt", "Non-VAT Withholding Tax"]

/-- `normalize_tax_type` from the source: exact match, then case-insensitive
match, then substring heuristics, defaulting to `Exempt`. -/
def normalize_tax_type (apiTaxName : String) : String :=
  match exactTaxMatch apiTaxName with
  | some v => v
  | none =>
    match ciTaxMatch apiTaxName with
    | some v => v
    | none =>
      let l := lowerStrip apiTaxName
      if hasSub l "15" || hasSub l "standard" then "Standard rated 15%"
      else if hasSub l "zero" || hasSub l "0%" then "Zero rated 0%"
      else if hasSub l "exempt" then "Exempt"
      else if hasSub l "withholding" then "Non-VAT Withholding Tax"
      else "Exempt"

/-- Modelled from the spec sentence for the same routine: exact match, then
case-insensitive match, then substring heuristics written in the spec's order
("standard"/"15", "zero"/"0%", "exempt", "withholding"), defaulting to
`Exempt`.  Kept as a second definition to compare with the source one. -/
def normalizeTaxTypeClaim (apiTaxName : String) : String :=
  match exactTaxMatch apiTaxName with
  | some v => v
  | none =>
    match ciTaxMatch apiTaxName with
    | some v => v
    | none =>
      let l := lowerStrip apiTaxName
      if hasSub l "standard" || hasSub l "15" then "Standard rated 15%"
      else if hasSub l "zero" || hasSub l "0%" then "Zero rated 0%"
      else if hasSub l "exempt" then "Exempt"
      else if hasSub l "withholding" then "Non-VAT Withholding Tax"
      else "Exempt"

/-! ## JSON values and the two serializers

`json.dumps(..., separators=(',', ':'), ensure_ascii=False)` is the encoding
used for every transmitted body (`__make_signed_request`), and
`json.dumps(..., separators=(",", ":"), sort_keys=True)` is `__encode_data`.
Objects keep insertion order, as Python dicts do. -/

inductive Json where
  | str (s : String)
  | num (n : Int)
  | bool (b : Bool)
  | null
  | arr (items : List Json)
  | obj (fields : List (String × Json))

/-- Lowercase hexadecimal digit, as Python's `\uXXXX` escapes use. -/
def hexDigit (n : Nat) : Char :=
  if n < 10 then Char.ofNat (48 + n) else Char.ofNat (87 + n)

/-- One character of a JSON string literal, as `json.dumps` renders it.
With `ensureAscii` set, characters above U+007F are `\uXXXX`-escaped
(modelled for the Basic Multilingual Plane, which covers the module). -/
def escChar (ensureAscii : Bool) (c : Char) : List Char :=
  if c == '"' then ['\\', '"']
  else if c == '\\' then ['\\', '\\']
  else if c == '\n' then ['\\', 'n']
  else if c == '\r' then ['\\', 'r']
  else if c == '\t' then ['\\', 't']
  else if c.toNat == 8 then ['\\', 'b']
  else if c.toNat == 12 then ['\\', 'f']
  else if c.toNat < 32 then
    ['\\', 'u', '0', '0', hexDigit (c.toNat / 16), hexDigit (c.toNat % 16)]
  else if ensureAscii && c.toNat > 127 then
    ['\\', 'u', hexDigit (c.toNat / 4096 % 16), hexDigit (c.toNat / 256 % 16),
     hexDigit (c.toNat / 16 % 16), hexDigit (c.toNat % 16)]
  else [c]

/-- A JSON string literal with quotes, as `json.dumps` renders it. -/
def escStr (ensureAscii : Bool) (s : String) : String :=
  ⟨'"' :: s.data.foldr (fun c acc => escChar ensureAscii c ++ acc) ['"']⟩

mutual

/-- `json.dumps` with `separators=(',', ':')`: compact, insertion order kept. -/
def dumpsJ (ea : Bool) : Json → String
  | .str s => escStr ea s
  | .num n => toString n
  | .bool b => if b then "true" else "false"
  | .null => "null"
  | .arr items => "[" ++ dumpsArr ea items ++ "]"
  | .obj fields => "\x7b" ++ dumpsObj ea fields ++ "\x7d"

def dumpsArr (ea : Bool) : List Json → String
  | [] => ""
  | [x] => dumpsJ ea x
  | x :: y :: t => dumpsJ ea x ++ "," ++ dumpsArr ea (y :: t)

def dumpsObj (ea : Bool) : List (String × Json) → String
  | [] => ""
  | [p] => escStr ea p.1 ++ ":" ++ dumpsJ ea p.2
  | p :: y :: t => escStr ea p.1 ++ ":" ++ dumpsJ ea p.2 ++ "," ++ dumpsObj ea (y :: t)

end

/-- Code-point lexicographic order on raw characters (Python `str <`). -/
def ltChars : List Char → List Char → Bool
  | [], [] => false
  | [], _ :: _ => true
  | _ :: _, [] => false
  | x :: xs, y :: ys =>
    if x.toNat < y.toNat then true
    else if y.toNat < x.toNat then false
    else ltChars xs ys

/-- `a ≤ b` on keys, for the stable sort `sort_keys=True` performs. -/
def leKey (a b : String) : Bool := !(ltChars b.data a.data)

/-- Stable insertion step for key-sorting object fields. -/
def insertField (p : String × Json) : List (String × Json) → List (String × Json)
  | [] => [p]
  | q :: t => if leKey p.1 q.1 then p :: q :: t else q :: insertField p t

/-- Stable sort of object fields by key (Python `sorted` on dict keys). -/
def sortFields : List (String × Json) → List (String × Json)
  | [] => []
  | p :: t => insertField p (sortFields t)

mutual

/-- Recursively key-sort every object of a JSON value (`sort_keys=True`). -/
def sortJson : Json → Json
  | .obj fields => .obj (sortFields (sortJsonFields fields))
  | .arr items => .arr (sortJsonArr items)
  | .str s => .str s
  | .num n => .num n
  | .bool b => .bool b
  | .null => .null

def sortJsonArr : List Json → List Json
  | [] => []
  | x :: t => sortJson x :: sortJsonArr t

def sortJsonFields : List (String × Json) → List (String × Json)
  | [] => []
  | p :: t => (p.1, sortJson p.2) :: sortJsonFields t

end

/-- The serializer of the transmitted request body
(`json.dumps(data, separators=(',', ':'), ensure_ascii=False)`). -/
def dumpsCompact (j : Json) : String := dumpsJ false j

/-- `ZimraConfig.__encode_data`: `json.dumps(data, separators=(",", ":"),
sort_keys=True)` (default `ensure_ascii=True`). -/
def encode_data (j : Json) : String := dumpsJ true (sortJson j)

/-! ## Signing client: UTF-8, SHA-256, HMAC, base64 (`__sign_payload`) -/

/-- UTF-8 bytes of one character (`str.encode("utf-8")`). -/
def utf8Char (c : Char) : List Nat :=
  let n := c.toNat
  if n < 128 then [n]
  else if n < 2048 then [192 + n / 64, 128 + n % 64]
  else if n < 65536 then [224 + n / 4096, 128 + n / 64 % 64, 128 + n % 64]
  else [240 + n / 262144, 128 + n / 4096 % 64, 128 + n / 64 % 64, 128 + n % 64]

/-- UTF-8 encoding of a string as a byte list (`str.encode("utf-8")`). -/
def utf8Bytes (s : String) : List Nat :=
  s.data.foldr (fun c acc => utf8Char c ++ acc) []

/-- Truncation to a 32-bit word. -/
def w32 (n : Nat) : Nat := n % 4294967296

/-- 32-bit rotate right. -/
def rotr32 (x n : Nat) : Nat := w32 (Nat.lor (x >>> n) (x <<< (32 - n)))

/-- The 64 SHA-256 round constants of FIPS 180-4, written in decimal. -/
def sha256K : List Nat :=
  [1116352408, 1899447441, 3049323471, 3921009573, 961987163,
   1508970993, 2453635748, 2870763221, 3624381080, 310598401,
   607225278, 1426881987, 1925078388, 2162078206, 2614888103,
   3248222580, 3835390401, 4022224774, 264347078, 604807628,
   770255983, 1249150122, 1555081692, 1996064986, 2554220882,
   2821834349, 2952996808, 3210313671, 3336571891, 3584528711,
   113926993, 338241895, 666307205, 773529912, 1294757372,
   1396182291, 1695183700, 1986661051, 2177026350, 2456956037,
   2730485921, 2820302411, 3259730800, 3345764771, 3516065817,
   3600352804, 4094571909, 275423344, 430227734, 506948616,
   659060556, 883997877, 958139571, 1322822218, 1537002063,
   1747873779, 1955562222, 2024104815, 2227730452, 2361852424,
   2428436474, 2756734187, 3204031479, 3329325298]

/-- The SHA-256 initial hash state of FIPS 180-4, written in decimal. -/
def sha256H0 : List Nat :=
  [1779033703, 3144134277, 1013904242, 2773480762,
   1359893119, 2600822924, 528734635, 1541459225]

/-- Big-endian byte rendering of a number on `k` bytes. -/
def bigEndianBytes : Nat → Nat → List Nat
  | 0, _ => []
  | k + 1, n => bigEndianBytes k (n / 256) ++ [n % 256]

/-- SHA-256 message padding: `0x80`, zeros to 56 mod 64, 64-bit bit length. -/
def sha256Pad (msg : List Nat) : List Nat :=
  let len := msg.length
  msg ++ [128] ++ List.replicate ((119 - len % 64) % 64) 0 ++ bigEndianBytes 8 (8 * len)

/-- Pack big-endian byte quadruples into 32-bit words. -/
def bytesToWords : List Nat → List Nat
  | b1 :: b2 :: b3 :: b4 :: t =>
    (b1 * 16777216 + b2 * 65536 + b3 * 256 + b4) :: bytesToWords t
  | _ => []

/-- Split a word list into 16-word blocks. -/
def wordChunks : List Nat → List (List Nat)
  | w0 :: w1 :: w2 :: w3 :: w4 :: w5 :: w6 :: w7 :: w8 :: w9 :: w10 :: w11 ::
    w12 :: w13 :: w14 :: w15 :: t =>
    [w0, w1, w2, w3, w4, w5, w6, w7, w8, w9, w10, w11, w12, w13, w14, w15] :: wordChunks t
  | _ => []

/-- σ0 of the SHA-256 message schedule. -/
def smallSigma0 (x : Nat) : Nat :=
  Nat.xor (Nat.xor (rotr32 x 7) (rotr32 x 18)) (x >>> 3)

/-- σ1 of the SHA-256 message schedule. -/
def smallSigma1 (x : Nat) : Nat :=
  Nat.xor (Nat.xor (rotr32 x 17) (rotr32 x 19)) (x >>> 10)

/-- Append the next scheduled word (`w[i] = σ1(w[i-2]) + w[i-7] + σ0(w[i-15]) + w[i-16]`). -/
def scheduleStep (ws : List Nat) : List Nat :=
  let n := ws.length
  ws ++ [w32 (smallSigma1 (ws.getD (n - 2) 0) + ws.getD (n - 7) 0 +
              smallSigma0 (ws.getD (n - 15) 0) + ws.getD (n - 16) 0)]

/-- Extend a 16-word block to the full 64-word schedule. -/
def fullSchedule (block : List Nat) : List Nat :=
  (List.range 48).foldl (fun acc _ => scheduleStep acc) block

/-- Σ0 of the SHA-256 compression function. -/
def bigSigma0 (x : Nat) : Nat :=
  Nat.xor (Nat.xor (rotr32 x 2) (rotr32 x 13)) (rotr32 x 22)

/-- Σ1 of the SHA-256 compression function. -/
def bigSigma1 (x : Nat) : Nat :=
  Nat.xor (Nat.xor (rotr32 x 6) (rotr32 x 11)) (rotr32 x 25)

/-- `Ch(x, y, z)` (the 32-bit complement written as xor with `2^32 - 1`). -/
def chFn (x y z : Nat) : Nat :=
  Nat.xor (Nat.land x y) (Nat.land (Nat.xor x 4294967295) z)

/-- `Maj(x, y, z)`. -/
def majFn (x y z : Nat) : Nat :=
  Nat.xor (Nat.xor (Nat.land x y) (Nat.land x z)) (Nat.land y z)

/-- One SHA-256 compression round on the 8-word working state. -/
def compressRound (st : List Nat) (kw : Nat × Nat) : List Nat :=
  match st with
  | [a, b, c, d, e, f, g, h] =>
    let t1 := w32 (h + bigSigma1 e + chFn e f g + kw.1 + kw.2)
    let t2 := w32 (bigSigma0 a + majFn a b c)
    [w32 (t1 + t2), a, b, c, w32 (d + t1), e, f, g]
  | other => other

/-- Process one 16-word block into the running hash state. -/
def processBlock (hs : List Nat) (block : List Nat) : List Nat :=
  let st := (sha256K.zip (fullSchedule block)).foldl compressRound hs
  (hs.zip st).map (fun p => w32 (p.1 + p.2))

/-- SHA-256 of a byte list, as a 32-byte list (`hashlib.sha256(...).digest()`). -/
def sha256 (msg : List Nat) : List Nat :=
  let hs := (wordChunks (bytesToWords (sha256Pad msg))).foldl processBlock sha256H0
  hs.foldr (fun h acc => bigEndianBytes 4 h ++ acc) []

/-- HMAC-SHA256 (`hmac.new(key, msg, hashlib.sha256).digest()`, block size 64). -/
def hmacSha256 (key msg : List Nat) : List Nat :=
  let k0 := if 64 < key.length then sha256 key else key
  let kPad := k0 ++ List.replicate (64 - k0.length) 0
  sha256 (kPad.map (fun b => Nat.xor b 92) ++
          sha256 (kPad.map (fun b => Nat.xor b 54) ++ msg))

/-- One output character of standard base64. -/
def b64Char (n : Nat) : Char :=
  if n < 26 then Char.ofNat (65 + n)
  else if n < 52 then Char.ofNat (97 + (n - 26))
  else if n < 62 then Char.ofNat (48 + (n - 52))
  else if n == 62 then '+'
  else '/'

/-- Standard base64 with padding (`base64.b64encode`). -/
def base64Chars : List Nat → List Char
  | [] => []
  | [b1] => [b64Char (b1 / 4), b64Char (b1 % 4 * 16), '=', '=']
  | [b1, b2] => [b64Char (b1 / 4), b64Char (b1 % 4 * 16 + b2 / 16), b64Char (b2 % 16 * 4), '=']
  | b1 :: b2 :: b3 :: t =>
    b64Char (b1 / 4) :: b64Char (b1 % 4 * 16 + b2 / 16) ::
    b64Char (b2 % 16 * 4 + b3 / 64) :: b64Char (b3 % 64) :: base64Chars t

/-- `base64.b64encode(...).decode("utf-8")`. -/
def base64 (bs : List Nat) : String := ⟨base64Chars bs⟩

/-- `ZimraConfig.__sign_payload`: base64 of the HMAC-SHA256 of the payload
under the configuration's API secret, both UTF-8 encoded. -/
def signPayload (apiSecret payload : String) : String :=
  base64 (hmacSha256 (utf8Bytes apiSecret) (utf8Bytes payload))

/-! ## Configuration, headers and the signed request (`zimra_config.py`) -/

/-- One row of `zimra.tax.mapping`. -/
structure TaxMapping where
  odooTaxId : Nat
  zimraTaxCode : String
  zimraTaxName : String
  zimraTaxRate : ℚ
  zimraTaxType : String
deriving DecidableEq

/-- One row of `zimra.currency.mapping`. -/
structure CurrencyMapping where
  odooCurrencyId : Nat
  zimraCurrencyCode : String
deriving DecidableEq

/-- A `zimra.config` record (the fields the submission pipeline reads). -/
structure Config where
  name : String
  apiUrl : String
  apiKey : String
  apiSecret : String
  userId : Int
  autoFiscalize : Bool
  taxMappings : List TaxMapping
  currencyMappings : List CurrencyMapping
deriving DecidableEq

/-- The HTTP headers the client sends. -/
structure Headers where
  xApiKey : String
  xApplication : String
  xAppStation : String
  contentType : String
  xApiSignature : Option String
deriving DecidableEq

/-- `ZimraConfig.__get_headers`. -/
def getHeaders (cfg : Config) : Headers :=
  { xApiKey := cfg.apiKey, xApplication := "FH_Quickbooks", xAppStation := "",
    contentType := "application/json", xApiSignature := none }

/-- `ZimraConfig.__get_signed_headers`: the standard headers plus
`X-Api-Signature` computed over the payload. -/
def getSignedHeaders (cfg : Config) (payload : String) : Headers :=
  { getHeaders cfg with xApiSignature := some (signPayload cfg.apiSecret payload) }

/-- The body `__make_signed_request` builds for structured (dict or list)
data: compact JSON in insertion order.  (String data is `json.loads`-parsed
and re-dumped with the same separators, reaching the same encoding.) -/
def makeSignedRequestBody (data : Json) : String := dumpsCompact data

/-- What `__make_signed_request` hands to `requests.post`: the headers
(including the signature) and the body bytes. -/
structure SignedRequest where
  headers : Headers
  transmittedBody : String
deriving DecidableEq

/-- `ZimraConfig.__make_signed_request`, POST branch: the signature in the
headers is computed over exactly the string passed as the request body. -/
def makeSignedRequest (cfg : Config) (data : Json) : SignedRequest :=
  let body := makeSignedRequestBody data
  { headers := getSignedHeaders cfg body, transmittedBody := body }

/-- The outcome of `send_fiscal_data`, with the authority-facing HTTP POSTs
it performs.  `completed` carries the signed document POST and the body of
the follow-up `/status` poll. -/
inductive SendOutcome where
  | errorResult (reason : String)
  | skipped (reason : String)
  | completed (request : SignedRequest) (statusPollBody : String)
deriving DecidableEq

/-- `ZimraConfig.send_fiscal_data` on parsed data (a string argument is
`json.loads`-parsed into the same `preview`; non-dict data is rejected).
`txnToken` is the transaction token the first POST returns; the result
counts the authority-facing POSTs performed: the guard branches perform
none, the full path performs the document POST and the `/status` poll. -/
def send_fiscal_data (cfg : Config) (data : Json) (txnToken : String) :
    SendOutcome × Nat :=
  match data with
  | .obj fields =>
    let ref := (fields.find? (fun p => p.1 == "Reference")).map (fun p => p.2)
    if (match ref with
        | some (.str s) => startsWithS s "Shop/"
        | _ => false) then
      (.skipped "Shop reference", 0)
    else
      (.completed (makeSignedRequest cfg data)
        (makeSignedRequestBody (.arr [.str txnToken])), 2)
  | _ => (.errorResult "unsupported data type", 0)

/-! ## Fiscal document state and authority responses -/

/-- The `zimra_status` selection shared by `pos.order` and `account.move`
(the POS field also lists an `'all'` value, which no transition assigns). -/
inductive Status where
  | pending
  | sent
  | fiscalized
  | failed
  | cancelled
  | exempted
deriving DecidableEq

/-- The `QrData` object inside a `/status` response. -/
structure QrData where
  fiscalDay : Option String
  invoiceNumber : Option String
  qrCodeUrl : Option String
  verificationCode : Option String
deriving DecidableEq

/-- One parsed object of the authority's `/status` response list.  `none`
models both an absent key and a JSON `null`. -/
structure ZimraResponse where
  error : Option String
  fiscalDay : Option String
  invoiceNumber : Option String
  qrData : Option QrData
  fiscalInvoicePdf : Option String
  requestId : Option String
  fiscalNumberField : Option String
  verificationUrl : Option String
deriving DecidableEq

/-- Optional field of a reconstructed response object. -/
def optField (k : String) (v : Option String) : List (String × Json) :=
  match v with
  | none => []
  | some s => [(k, .str s)]

/-- Reconstruct the `QrData` JSON object. -/
def qrToJson (q : QrData) : Json :=
  .obj (optField "FiscalDay" q.fiscalDay ++ optField "InvoiceNumber" q.invoiceNumber ++
        optField "QrCodeUrl" q.qrCodeUrl ++ optField "VerificationCode" q.verificationCode)

/-- Reconstruct a response object as JSON. -/
def responseToJson (r : ZimraResponse) : Json :=
  .obj (optField "Error" r.error ++ optField "FiscalDay" r.fiscalDay ++
        optField "InvoiceNumber" r.invoiceNumber ++
        (match r.qrData with
         | none => []
         | some q => [("QrData", qrToJson q)]) ++
        optField "FiscalInvoicePdf" r.fiscalInvoicePdf ++
        optField "RequestId" r.requestId ++
        optField "fiscal_number" r.fiscalNumberField ++
        optField "verification_url" r.verificationUrl)

/-- The serialized response text stored into `zimra_response`
(`json.dumps(response_data)`; the exact whitespace of the Python default
separators is not modelled, no claim reads this text back). -/
def serializeResponses (rs : List ZimraResponse) : String :=
  dumpsCompact (.arr (rs.map responseToJson))

/-- The partner (`res.partner`) fields the buyer-contact builders read. -/
structure Partner where
  name : String
  vat : Option String
  companyRegistry : Option String
  phone : Option String
  email : Option String
  stateName : Option String
  street : Option String
  street2 : Option String
  city : Option String
deriving DecidableEq

/-- One attempted match of `TAG[:=]\s*(\d+)` starting at the head of `cs`. -/
def tryTagNumHere (tag : List Char) (cs : List Char) : Option (List Char) :=
  if tag.isPrefixOf cs then
    match cs.drop tag.length with
    | sep :: rest =>
      if sep == ':' || sep == '=' then
        let ds := (rest.dropWhile Char.isWhitespace).takeWhile Char.isDigit
        if ds.isEmpty then none else some ds
      else none
    | [] => none
  else none

/-- `re.search(TAG + r'[:=]\s*(\d+)', s)`: leftmost match's digit group. -/
def searchTagNum (tag : List Char) : List Char → Option (List Char)
  | [] => none
  | c :: t =>
    match tryTagNumHere tag (c :: t) with
    | some ds => some ds
    | none => searchTagNum tag t

/-- `AccountMove._parse_vat_field`: `None` input short-circuits to
`(None, None)`; otherwise each unmatched group is the empty string. -/
def amParseVatField (vatString : Option String) : Option String × Option String :=
  match vatString with
  | none => (none, none)
  | some v =>
    (some (match searchTagNum "TIN".data v.data with
           | some ds => (⟨ds⟩ : String)
           | none => ""),
     some (match searchTagNum "VAT".data v.data with
           | some ds => (⟨ds⟩ : String)
           | none => ""))

/-- `PosOrder._parse_vat_field`: searches `vat_string or ""`, returning the
digit groups (empty strings when unmatched). -/
def posParseVatField (vatString : Option String) : String × String :=
  let v := vatString.getD ""
  ((match searchTagNum "TIN".data v.data with
    | some ds => (⟨ds⟩ : String)
    | none => ""),
   (match searchTagNum "VAT".data v.data with
    | some ds => (⟨ds⟩ : String)
    | none => ""))

/-- The `Address` object of a buyer contact. -/
structure AddressOut where
  province : String
  street : String
  houseNo : String
  city : String
deriving DecidableEq

/-- The `BuyerContact` object of a payload (`none` models the empty dict
returned when the document has no partner). -/
structure BuyerOut where
  name : Option String
  tin : Option String
  vatNumber : Option String
  address : Option AddressOut
  phone : Option String
  email : Option String
deriving DecidableEq

/-- `_get_customer_address` (identical in both models). -/
def getCustomerAddress (p : Option Partner) : Option AddressOut :=
  match p with
  | none => none
  | some pt =>
    some { province := pt.stateName.getD "", street := pt.street2.getD "",
           houseNo := pt.street.getD "", city := pt.city.getD "" }

/-- `AccountMove._get_buyer_contact`. -/
def amGetBuyerContact (p : Option Partner) : Option BuyerOut :=
  match p with
  | none => none
  | some pt =>
    let tv :=
      if pyTruthy pt.companyRegistry then (pt.companyRegistry, pyOrNone pt.vat)
      else amParseVatField pt.vat
    some { name := some pt.name, tin := pyOrNone tv.1, vatNumber := pyOrNone tv.2,
           address := getCustomerAddress (some pt),
           phone := some (pt.phone.getD ""), email := some (pt.email.getD "") }

/-- `PosOrder.__get_buyer_contact`. -/
def posGetBuyerContact (p : Option Partner) : Option BuyerOut :=
  match p with
  | none => none
  | some pt =>
    let tv : Option String × Option String :=
      if pyTruthy pt.companyRegistry then (pt.companyRegistry, pt.vat)
      else
        let pr := posParseVatField pt.vat
        (some pr.1, some pr.2)
    some { name := some pt.name, tin := pyOrNone tv.1, vatNumber := pyOrNone tv.2,
           address := getCustomerAddress (some pt),
           phone := pyOrNone pt.phone, email := pyOrNone pt.email }

/-! ## Harmonized-system code extraction (`re.search(r'\b\d{8,}\b', name)`) -/

/-- Scanner state for locating the first qualifying digit run. -/
structure HsScan where
  prev : Option Char
  run : List Char
  okStart : Bool
  found : Option (List Char)

/-- One scanner step: maximal digit runs of length 8 or more qualify when
bounded by non-word characters (or the string edges) on both sides. -/
def hsStep (st : HsScan) (c : Char) : HsScan :=
  if c.isDigit then
    if st.run.isEmpty then
      { st with
        run := [c],
        okStart :=
          match st.prev with
          | none => true
          | some p => !isWordChar p,
        prev := some c }
    else { st with run := st.run ++ [c], prev := some c }
  else
    { prev := some c, run := [], okStart := false,
      found :=
        if st.found.isNone && 8 ≤ st.run.length && st.okStart && !isWordChar c then
          some st.run
        else st.found }

/-- `re.search(r'\b\d{8,}\b', ...)`: the first maximal digit run of length
8+ whose neighbours are not word characters. -/
def findHsCode (cs : List Char) : Option (List Char) :=
  let st := cs.foldl hsStep { prev := none, run := [], okStart := false, found := none }
  if st.found.isNone && 8 ≤ st.run.length && st.okStart then some st.run else st.found

/-- Remove every word-bounded occurrence of the pattern `h0 :: hs` (a digit
run at call sites), continuing after each removed occurrence, as
`re.sub(r'\b' + re.escape(code) + r'\b', '', name)` does. -/
def removeHsAux (h0 : Char) (hs : List Char) : Option Char → List Char → List Char
  | _, [] => []
  | prev, c :: t =>
    let leftOk :=
      match prev with
      | none => true
      | some p => !isWordChar p
    let rest := t.drop hs.length
    let rightOk :=
      match rest.head? with
      | none => true
      | some n => !isWordChar n
    if c == h0 && hs.isPrefixOf t && leftOk && rightOk then
      removeHsAux h0 hs (some ((h0 :: hs).getLastD c)) rest
    else c :: removeHsAux h0 hs (some c) t
termination_by _ cs => cs.length
decreasing_by
  all_goals simp [List.length_drop]
  all_goals omega

/-- `re.sub` removal wrapper (the call sites always pass a non-empty run). -/
def removeHs (hs cs : List Char) : List Char :=
  match hs with
  | [] => cs
  | h :: t => removeHsAux h t none cs

/-- `re.sub(r'\s+', ' ', name)`: collapse whitespace runs to single spaces. -/
def collapseSpaces : List Char → List Char
  | [] => []
  | c :: t =>
    if c.isWhitespace then ' ' :: collapseSpaces (t.dropWhile Char.isWhitespace)
    else c :: collapseSpaces t
termination_by cs => cs.length
decreasing_by
  all_goals simp
  exact Nat.lt_succ_of_le (List.dropWhile_suffix _).sublist.length_le

/-! ## POS order model (`pos_order.py`) -/

/-- One `pos.order.line` as the POS builders read it.  `productName` is
`line.product_id.name` (`none` for a missing product or false-y name). -/
structure PosLine where
  productName : Option String
  priceUnit : ℚ
  qty : ℚ
  discount : ℚ
  priceSubtotalIncl : ℚ
  taxIds : List Nat
deriving DecidableEq

/-- A `pos.order` record (the ZIMRA fields plus what the pipeline reads).
The POS path stores the raw `QrData` value into its `zimra_qr_code` field,
so that field holds an optional `QrData` here. -/
structure PosOrder where
  name : String
  posReference : Option String
  state : String
  amountTotal : ℚ
  amountTax : ℚ
  currencyId : Nat
  partner : Option Partner
  lines : List PosLine
  zimraStatus : Status
  zimraFiscalNumber : Option String
  zimraResponse : Option String
  zimraError : Option String
  zimraSentDate : Option Nat
  zimraFiscalizedDate : Option Nat
  zimraRetryCount : Nat
  zimraQrCode : Option QrData
  fiscalizedPdf : Option String
  zimraVerificationUrl : Option String
  zimraAttempted : Bool
deriving DecidableEq

/-- `PosOrder.__is_receipt_discount_line`: `'%'`, `'discount'` or
`'loyalty'` in the lowered product name, or a negative tax-inclusive
subtotal. -/
def posIsReceiptDiscountLine (l : PosLine) : Bool :=
  let nm : String := ⟨lowerL (l.productName.getD "").data⟩
  hasSub nm "%" || hasSub nm "discount" || hasSub nm "loyalty" ||
  decide (l.priceSubtotalIncl < 0)

/-- `PosOrder.__is_discount_line`. -/
def posIsDiscountLine (l : PosLine) : Bool :=
  decide (0 < l.discount) ||
  (let nm : String :=
    match l.productName with
    | none => ""
    | some s => ⟨lowerL s.data⟩
   hasSub nm "discount" || hasSub nm "loyalty" || hasSub nm "voucher" || hasSub nm "% off") ||
  decide (l.priceSubtotalIncl < 0)

/-- One emitted line item.  The source formats the rational amounts into
fixed-decimal strings (`:.3f` / `:.2f`); the exact rationals are kept here. -/
structure LineItemOut where
  description : String
  unitAmount : ℚ
  taxCode : String
  productCode : String
  lineAmount : ℚ
  discountAmount : ℚ
  quantity : ℚ
deriving DecidableEq

/-- First tax on the line that has a mapping, else the empty code.  (The
source builds a dict keyed by `odoo_tax_id.id`; mappings are unique per tax
within a configuration, so first-match lookup is the same.) -/
def taxCodeFor (tms : List TaxMapping) : List Nat → String
  | [] => ""
  | t :: rest =>
    match tms.find? (fun tm => tm.odooTaxId == t) with
    | some tm => tm.zimraTaxCode
    | none => taxCodeFor tms rest

/-- The POS name/HS-code split used by `__get_line_items` (strip after
removal, no whitespace collapsing in this variant). -/
def posSplitNameHs (name : String) : String × String :=
  match findHsCode name.data with
  | some run => (strip ⟨removeHs run name.data⟩, (⟨run⟩ : String))
  | none => (name, "")

/-- Product lines: every line that is not a receipt-discount line. -/
def posProductLines (lines : List PosLine) : List PosLine :=
  lines.filter (fun l => !posIsReceiptDiscountLine l)

/-- Pooled receipt-level discount: sum of `abs(price_subtotal_incl)` over
the receipt-discount lines. -/
def posReceiptDiscountTotal (lines : List PosLine) : ℚ :=
  (lines.filter posIsReceiptDiscountLine).foldl (fun acc l => acc + |l.priceSubtotalIncl|) 0

/-- `sum(l.price_subtotal_incl for l in product_lines) or 1.0`: the
denominator of the proportional allocation, with zero replaced by one. -/
def totalBeforeDiscount (productLines : List PosLine) : ℚ :=
  let s := productLines.foldl (fun acc l => acc + l.priceSubtotalIncl) 0
  if s = 0 then 1 else s

/-- One line item of `PosOrder.__get_line_items`. -/
def posLineItem (tms : List TaxMapping) (rdTotal denom : ℚ) (l : PosLine) : LineItemOut :=
  let nh := posSplitNameHs (l.productName.getD "")
  let proportional := rdTotal * (l.priceSubtotalIncl / denom)
  let lineDiscount := if l.discount == 0 then 0 else l.priceUnit * l.qty * l.discount / 100
  { description := nh.1, unitAmount := |l.priceUnit|, taxCode := taxCodeFor tms l.taxIds,
    productCode := nh.2, lineAmount := |l.priceSubtotalIncl - proportional|,
    discountAmount := |lineDiscount + proportional|, quantity := |l.qty| }

/-- `PosOrder.__get_line_items`: receipt-discount lines are pooled and the
pool is allocated proportionally over the remaining product lines. -/
def posGetLineItems (tms : List TaxMapping) (lines : List PosLine) : List LineItemOut :=
  let pls := posProductLines lines
  (pls.map (posLineItem tms (posReceiptDiscountTotal lines) (totalBeforeDiscount pls)))

/-- The payload either builder produces (`Invoice` or `CreditNote` shape;
`isDiscounted := none` models the POS credit-note dict, which has no
`IsDiscounted` key). -/
structure Payload where
  isCreditNote : Bool
  docId : String
  docNumber : String
  originalInvoiceId : Option String
  reference : String
  isDiscounted : Option Bool
  isTaxInclusive : Bool
  buyerContact : Option BuyerOut
  date : String
  lineItems : List LineItemOut
  subTotal : ℚ
  totalTax : ℚ
  total : ℚ
  currencyCode : String
  isRetry : Bool
deriving DecidableEq

/-- Currency resolution with the fixed `'USD'` fallback. -/
def currencyCodeFor (cms : List CurrencyMapping) (currencyId : Nat) : String :=
  match cms.find? (fun cm => cm.odooCurrencyId == currencyId) with
  | some cm => cm.zimraCurrencyCode
  | none => "USD"

/-- `re.sub(r'\s+REFUND$', '', name).strip()`. -/
def stripRefundEnd (s : String) : String :=
  let cs := s.data
  let matched :=
    "REFUND".data.isSuffixOf cs &&
    (match (cs.take (cs.length - 6)).getLast? with
     | some b => b.isWhitespace
     | none => false)
  if matched then
    strip ⟨((cs.take (cs.length - 6)).reverse.dropWhile Char.isWhitespace).reverse⟩
  else strip s

/-- `PosOrder._prepare_zimra_invoice_data`.  No mapping or line-item
validation is performed on this path; `seqName` is the next sequence value
(the placeholder-name re-check), `nowStr` the `datetime.now()` submission
timestamp.  The source's `total_discount` re-parses the 2-decimal
formatted strings; the exact rationals are summed here. -/
def posPrepareInvoiceData (doc : PosOrder) (cfg : Config) (seqName : Option String)
    (nowStr : String) : Payload :=
  let currencyCode := currencyCodeFor cfg.currencyMappings doc.currencyId
  let buyer := posGetBuyerContact doc.partner
  let lineItems := posGetLineItems cfg.taxMappings doc.lines
  let hasDiscount := doc.lines.any posIsDiscountLine
  let totalDiscount := lineItems.foldl (fun acc it => acc + it.discountAmount) 0
  let subtotal := doc.amountTotal - totalDiscount
  let isRefund := endsWithS (strip doc.name) "REFUND"
  let invoiceName :=
    if doc.name == "" || doc.name == "/" then
      match seqName with
      | some n => n
      | none => doc.name
    else doc.name
  if isRefund then
    { isCreditNote := true, docId := invoiceName, docNumber := invoiceName,
      originalInvoiceId := some (stripRefundEnd invoiceName),
      reference := doc.posReference.getD "", isDiscounted := none,
      isTaxInclusive := true, buyerContact := buyer, date := nowStr,
      lineItems := lineItems, subTotal := |subtotal - doc.amountTax|,
      totalTax := |doc.amountTax|, total := |doc.amountTotal + totalDiscount|,
      currencyCode := currencyCode, isRetry := decide (0 < doc.zimraRetryCount) }
  else
    { isCreditNote := false, docId := invoiceName, docNumber := invoiceName,
      originalInvoiceId := none, reference := doc.posReference.getD "",
      isDiscounted := some hasDiscount, isTaxInclusive := true,
      buyerContact := buyer, date := nowStr, lineItems := lineItems,
      subTotal := subtotal - doc.amountTax, totalTax := doc.amountTax,
      total := doc.amountTotal, currencyCode := currencyCode,
      isRetry := decide (0 < doc.zimraRetryCount) }

/-- `PosOrder._should_fiscalize`. -/
def posShouldFiscalize (doc : PosOrder) : Bool :=
  if doc.zimraStatus == .fiscalized || doc.zimraStatus == .exempted then false
  else if doc.state == "draft" || doc.state == "cancel" then false
  else if decide (doc.amountTotal < 0) then true
  else if decide (0 < doc.amountTotal) && doc.state == "draft" then false
  else true

/-- Endpoint selection (`_determine_endpoint` and the inline POS variant):
a truthy `CreditNoteId`, else `'refund'` inside the stripped lowered
`InvoiceId`, else `/invoice`. -/
def determineEndpoint (p : Payload) : String :=
  if p.isCreditNote && !(p.docId == "") then "/creditnote"
  else
    let invoiceId := if p.isCreditNote then "" else lowerStrip p.docId
    if hasSub invoiceId "refund" then "/creditnote" else "/invoice"

/-- `PosOrder._is_fiscalization_successful`: a non-empty list whose first
object has a falsy `Error`. -/
def posIsFiscalizationSuccessful (responseData : List ZimraResponse) : Bool :=
  match responseData with
  | [] => false
  | resp :: _ => !(pyTruthy resp.error)

/-- The collaborators `PosOrder._send_to_zimra` consults: the
duplicate-number search result, the active configuration, the POS sequence,
and what `send_fiscal_data` returns (`Except.error` models a raised
exception reaching the outer handler). -/
structure PosEnv where
  hasDuplicateFiscalized : Bool
  duplicateOrderId : Nat
  config : Option Config
  seqName : Option String
  response : Except String (List ZimraResponse)

/-- The part of `PosOrder._send_to_zimra` after the placeholder-name block:
duplicate guard, configuration lookup, eligibility, payload build, send and
response interpretation.  The result is the updated order, the method's
boolean return value, and the number of `send_fiscal_data` invocations
(authority-facing network activity) the path performed.  The audit-log row
and PDF auto-download are collaborators not modelled. -/
def posSendToZimraCore (doc : PosOrder) (env : PosEnv) (now : Nat) (nowStr : String) :
    PosOrder × Bool × Nat :=
    if env.hasDuplicateFiscalized then
      ({ doc with
         zimraStatus := .exempted,
         zimraError := some ("Invoice " ++ doc.name ++ " already fiscalized in order " ++
                             toString env.duplicateOrderId) }, true, 0)
    else
      match env.config with
      | none =>
        ({ doc with
           zimraStatus := .failed,
           zimraError := some "No active FiscalHarmony configuration found" }, false, 0)
      | some cfg =>
        if !posShouldFiscalize doc then ({ doc with zimraStatus := .exempted }, true, 0)
        else
          let invoiceData := posPrepareInvoiceData doc cfg env.seqName nowStr
          let doc := { doc with
                       zimraSentDate := some now,
                       zimraRetryCount := doc.zimraRetryCount + 1 }
          let _endpoint := determineEndpoint invoiceData
          match env.response with
          | .error e => ({ doc with zimraStatus := .failed, zimraError := some e }, false, 1)
          | .ok responseData =>
            let doc := { doc with
                         zimraResponse := some (if responseData.isEmpty then ""
                                                else serializeResponses responseData) }
            if posIsFiscalizationSuccessful responseData then
              match responseData with
              | resp :: _ =>
                ({ doc with
                   zimraStatus := .fiscalized,
                   zimraFiscalNumber :=
                     some (pyStr resp.invoiceNumber ++ "/" ++ pyStr resp.fiscalDay),
                   zimraFiscalizedDate := some now,
                   zimraQrCode := resp.qrData,
                   fiscalizedPdf := resp.fiscalInvoicePdf,
                   zimraVerificationUrl := resp.verificationUrl,
                   zimraError := none }, true, 1)
              | [] => (doc, true, 1)
            else
              let resp := responseData.head?
              let fn :=
                match resp with
                | some r =>
                  match r.fiscalNumberField with
                  | some v => some v
                  | none => r.requestId
                | none => none
              let err :=
                match resp with
                | some r => r.error
                | none => none
              ({ doc with
                 zimraStatus := .failed,
                 zimraFiscalNumber := fn,
                 zimraError := err }, false, 1)

/-- `PosOrder._send_to_zimra`: the placeholder-name block (skip when the
order has no name and the POS has no sequence, else assign the next
sequence value), then the core submission. -/
def posSendToZimra (doc : PosOrder) (env : PosEnv) (now : Nat) (nowStr : String) :
    PosOrder × Bool × Nat :=
  if (doc.name == "" || doc.name == "/") && env.seqName.isNone then (doc, false, 0)
  else
    posSendToZimraCore
      (if doc.name == "" || doc.name == "/" then { doc with name := env.seqName.getD doc.name }
       else doc) env now nowStr

/-- The notification kinds the manual actions return. -/
inductive Notif where
  | alreadyFiscalized
  | invalidDocument
  | invoiceNotPosted
  | fiscalizationSuccessful
  | fiscalizationFailed
deriving DecidableEq

/-- `PosOrder.action_fiscalize_manual`. -/
def posActionFiscalizeManual (doc : PosOrder) (env : PosEnv) (now : Nat) (nowStr : String) :
    PosOrder × Notif × Nat :=
  if doc.zimraStatus == .fiscalized || doc.zimraStatus == .sent then
    (doc, .alreadyFiscalized, 0)
  else
    let r := posSendToZimra doc env now nowStr
    (r.1, if r.2.1 then .fiscalizationSuccessful else .fiscalizationFailed, r.2.2)

/-- The outcome of a retry action. -/
inductive RetryOutcome where
  | cannotRetry
  | retryLimitReached
  | attempted (n : Notif)
deriving DecidableEq

/-- `PosOrder.action_retry_fiscalization`: the only guard is
`zimra_status == 'failed'`; there is no retry-count ceiling on this path. -/
def posActionRetryFiscalization (doc : PosOrder) (env : PosEnv) (now : Nat) (nowStr : String) :
    PosOrder × RetryOutcome × Nat :=
  if !(doc.zimraStatus == .failed) then (doc, .cannotRetry, 0)
  else
    let doc := { doc with zimraStatus := .pending, zimraError := none }
    let r := posActionFiscalizeManual doc env now nowStr
    (r.1, .attempted r.2.1, r.2.2)

/-- The POS cron's search domain: failed orders with fewer than 3 retries. -/
def posCronSelects (doc : PosOrder) : Bool :=
  doc.zimraStatus == .failed && doc.zimraRetryCount < 3

/-- `PosOrder.cron_retry_failed_fiscalization`: the selection the cron job
resubmits. -/
def posCronRetrySelection (orders : List PosOrder) : List PosOrder :=
  orders.filter posCronSelects

/-! ## Invoice model (`account_move.py`) -/

/-- One `account.move.line` as the invoice builder reads it. -/
structure InvoiceLine where
  displayType : String
  taxIds : List Nat
  productName : Option String
  l10nHsCode : String
  lineName : String
  quantity : ℚ
  priceUnit : ℚ
  priceSubtotal : ℚ
  priceTotal : ℚ
  discount : ℚ
deriving DecidableEq

/-- An `account.move` record (dates are carried as opaque ISO strings). -/
structure AccountMove where
  name : String
  moveType : String
  state : String
  ref : Option String
  reversedEntryName : Option String
  invoiceDate : Option String
  partner : Option Partner
  invoiceLines : List InvoiceLine
  currencyId : Nat
  amountUntaxed : ℚ
  amountTax : ℚ
  amountTotal : ℚ
  zimraStatus : Status
  zimraFiscalNumber : Option String
  zimraResponse : Option String
  zimraError : Option String
  zimraSentDate : Option Nat
  zimraFiscalizedDate : Option Nat
  zimraRetryCount : Nat
  zimraQrCode : Option String
  zimraVerificationUrl : Option String
  fiscalizedPdf : Option String
  fiscalPdfAttachment : Option Nat
deriving DecidableEq

/-- `AccountMove._parse_product_name`: the stored HS-code field wins;
otherwise the 8+-digit run is extracted from the product name, removed,
stripped, and whitespace-collapsed. -/
def amParseProductName (line : InvoiceLine) : String × String :=
  match line.productName with
  | none => (pyOrS line.lineName "Service", "")
  | some pn =>
    let name := pyOrS pn "Unnamed Product"
    if line.l10nHsCode == "" then
      match findHsCode name.data with
      | some run => (⟨collapseSpaces (trimL (removeHs run name.data))⟩, (⟨run⟩ : String))
      | none => (name, "")
    else (name, line.l10nHsCode)

/-- `AccountMove._prepare_line_item` (the caller catches per-line
exceptions and skips the line; the model is total). -/
def amPrepareLineItem (doc : AccountMove) (tms : List TaxMapping) (line : InvoiceLine) :
    Option LineItemOut :=
  if line.displayType == "line_section" || line.displayType == "line_note" then none
  else
    let nh := amParseProductName line
    let isRefund := doc.moveType == "out_refund"
    let quantity := if isRefund then |line.quantity| else line.quantity
    let unitAmount := if isRefund then |line.priceUnit| else line.priceUnit
    let subtotal := if isRefund then |line.priceSubtotal| else line.priceSubtotal
    let lineTotal := if isRefund then |line.priceTotal| else line.priceTotal
    some { description := pyOrS nh.1 (pyOrS line.lineName ""),
           unitAmount := unitAmount,
           taxCode := taxCodeFor tms line.taxIds,
           productCode := nh.2,
           lineAmount := lineTotal,
           discountAmount := unitAmount * quantity - subtotal,
           quantity := quantity }

/-- `AccountMove._get_line_items`: section/note lines are skipped, the rest
are prepared (each may independently be dropped). -/
def amGetLineItems (doc : AccountMove) (tms : List TaxMapping) : List LineItemOut :=
  (doc.invoiceLines.filter
    (fun l => !(l.displayType == "line_section" || l.displayType == "line_note"))).filterMap
    (amPrepareLineItem doc tms)

/-- `_create_timestamp(self.invoice_date or fields.Date.today())` with
dates as opaque ISO strings (string passthrough in the source). -/
def amCreateTimestamp (invoiceDate : Option String) (todayStr : String) : String :=
  match invoiceDate with
  | some d => d
  | none => todayStr

/-- The body of `AccountMove._prepare_zimra_invoice_data`: the three
`ValidationError` guards, then the Invoice or CreditNote shape. -/
def amPrepareInvoiceDataInner (doc : AccountMove) (cfg : Config) (todayStr : String) :
    Except String Payload :=
  if cfg.taxMappings.isEmpty then
    .error ("Invoice " ++ doc.name ++ ": No tax mappings defined in ZIMRA config " ++ cfg.name)
  else if cfg.currencyMappings.isEmpty then
    .error ("Invoice " ++ doc.name ++ ": No currency mappings defined in ZIMRA config " ++
            cfg.name)
  else
    let lineItems := amGetLineItems doc cfg.taxMappings
    if lineItems.isEmpty then
      .error ("Invoice " ++ doc.name ++
              ": No valid line items found. Check invoice lines and tax mappings.")
    else
      let currencyCode := currencyCodeFor cfg.currencyMappings doc.currencyId
      let buyer := amGetBuyerContact doc.partner
      let timestamp := amCreateTimestamp doc.invoiceDate todayStr
      let hasDiscount := doc.invoiceLines.any (fun l => decide (0 < l.discount))
      if doc.moveType == "out_refund" then
        .ok { isCreditNote := true, docId := doc.name, docNumber := doc.name,
              originalInvoiceId :=
                some (match doc.reversedEntryName with
                      | some n => n
                      | none => ""),
              reference := doc.ref.getD "", isDiscounted := some hasDiscount,
              isTaxInclusive := true, buyerContact := buyer, date := timestamp,
              lineItems := lineItems, subTotal := |doc.amountUntaxed|,
              totalTax := |doc.amountTax|, total := |doc.amountTotal|,
              currencyCode := currencyCode, isRetry := decide (0 < doc.zimraRetryCount) }
      else
        .ok { isCreditNote := false, docId := doc.name, docNumber := doc.name,
              originalInvoiceId := none, reference := doc.ref.getD "",
              isDiscounted := some hasDiscount, isTaxInclusive := true,
              buyerContact := buyer, date := timestamp, lineItems := lineItems,
              subTotal := doc.amountUntaxed, totalTax := doc.amountTax,
              total := doc.amountTotal, currencyCode := currencyCode,
              isRetry := decide (0 < doc.zimraRetryCount) }

/-- `AccountMove._prepare_zimra_invoice_data`: the outer handler re-raises
every failure wrapped in the `Failed to prepare  data` message (the double
space is in the source). -/
def amPrepareInvoiceData (doc : AccountMove) (cfg : Config) (todayStr : String) :
    Except String Payload :=
  match amPrepareInvoiceDataInner doc cfg todayStr with
  | .ok p => .ok p
  | .error e => .error ("Failed to prepare  data for invoice " ++ doc.name ++ ": " ++ e)

/-- The host ORM's `is_invoice()` (sale and purchase invoices and refunds). -/
def amIsInvoice (doc : AccountMove) : Bool :=
  doc.moveType == "out_invoice" || doc.moveType == "out_refund" ||
  doc.moveType == "in_invoice" || doc.moveType == "in_refund"

/-- The host ORM's `is_invoice(include_receipts=True)`. -/
def amIsInvoiceIncludeReceipts (doc : AccountMove) : Bool :=
  amIsInvoice doc || doc.moveType == "out_receipt" || doc.moveType == "in_receipt"

/-- `AccountMove._should_fiscalize`. -/
def amShouldFiscalize (doc : AccountMove) : Bool :=
  if !amIsInvoiceIncludeReceipts doc then false
  else if doc.zimraStatus == .fiscalized || doc.zimraStatus == .exempted then false
  else if !(doc.state == "posted") then false
  else if !(doc.moveType == "out_invoice" || doc.moveType == "out_refund") then false
  else true

/-- `AccountMove._mark_as_failed`: status `failed`, the error text, and
`fiscal_number or self.zimra_fiscal_number` (a truthy provisional reference
overwrites, otherwise the stored number is kept). -/
def markAsFailed (doc : AccountMove) (errorMessage : String) (fiscalNumber : Option String) :
    AccountMove :=
  { doc with
    zimraStatus := .failed,
    zimraError := some errorMessage,
    zimraFiscalNumber := if pyTruthy fiscalNumber then fiscalNumber else doc.zimraFiscalNumber }

/-- `AccountMove._is_fiscalization_successful` on the extracted response
object: success iff `Error` is falsy. -/
def amIsFiscalizationSuccessful (resp : ZimraResponse) : Bool := !(pyTruthy resp.error)

/-- `response.get("FiscalDay") or qr_data.get("FiscalDay", "")`. -/
def resolvedFiscalDay (resp : ZimraResponse) : String :=
  let qrFD :=
    match resp.qrData with
    | some q => q.fiscalDay.getD ""
    | none => ""
  match resp.fiscalDay with
  | some s => if s == "" then qrFD else s
  | none => qrFD

/-- `response.get("InvoiceNumber") or qr_data.get("InvoiceNumber", "")`. -/
def resolvedInvoiceNumber (resp : ZimraResponse) : String :=
  let qrIN :=
    match resp.qrData with
    | some q => q.invoiceNumber.getD ""
    | none => ""
  match resp.invoiceNumber with
  | some s => if s == "" then qrIN else s
  | none => qrIN

/-- The incomplete-response error text (the source interpolates the Python
dict repr of the response; its JSON rendering stands in for that here). -/
def incompleteResponseMsg (resp : ZimraResponse) : String :=
  "Incomplete response from ZIMRA:" ++ dumpsCompact (responseToJson resp) ++
  ": missing FiscalDay or InvoiceNumber"

/-- `AccountMove._process_zimra_response`: success requires a falsy `Error`
AND both `FiscalDay` and `InvoiceNumber` (with the `QrData` fallback);
failures store the authority error and any provisional reference.  An empty
list raises `IndexError`, which the handler turns into a failure. -/
def processZimraResponse (doc : AccountMove) (responseData : List ZimraResponse) (now : Nat) :
    AccountMove × Bool :=
  match responseData with
  | [] => (markAsFailed doc "Error processing ZIMRA response: list index out of range" none,
           false)
  | resp :: _ =>
    if amIsFiscalizationSuccessful resp then
      let fiscalDay := resolvedFiscalDay resp
      let invoiceNumber := resolvedInvoiceNumber resp
      if fiscalDay == "" || invoiceNumber == "" then
        (markAsFailed doc (incompleteResponseMsg resp) none, false)
      else
        let qr := resp.qrData.getD
          { fiscalDay := none, invoiceNumber := none, qrCodeUrl := none,
            verificationCode := none }
        ({ doc with
           zimraStatus := .fiscalized,
           zimraFiscalNumber := some (invoiceNumber ++ "/" ++ fiscalDay),
           zimraFiscalizedDate := some now,
           zimraQrCode := some (qr.qrCodeUrl.getD ""),
           zimraVerificationUrl := some (qr.verificationCode.getD ""),
           fiscalizedPdf := some (resp.fiscalInvoicePdf.getD ""),
           zimraError := none }, true)
    else
      let errorMsg := resp.error.getD "Unknown error from ZIMRA"
      let fiscalNumber :=
        match resp.fiscalNumberField with
        | some v => v
        | none => resp.requestId.getD ""
      (markAsFailed doc errorMsg (some fiscalNumber), false)

/-- The collaborators `AccountMove._send_to_zimra` consults. -/
structure AmEnv where
  config : Option Config
  response : Except String (List ZimraResponse)

/-- `AccountMove._send_to_zimra`: configuration lookup, eligibility,
payload construction (failures marked, no network), then the send and the
response interpretation.  The third component counts `send_fiscal_data`
invocations performed by the path. -/
def amSendToZimra (doc : AccountMove) (env : AmEnv) (now : Nat) (todayStr : String) :
    AccountMove × Bool × Nat :=
  match env.config with
  | none =>
    (markAsFailed doc "No active ZIMRA configuration found for this company" none, false, 0)
  | some cfg =>
    if !amShouldFiscalize doc then ({ doc with zimraStatus := .exempted }, true, 0)
    else
      match amPrepareInvoiceData doc cfg todayStr with
      | .error e => (markAsFailed doc ("Failed to prepare invoice data : " ++ e) none, false, 0)
      | .ok invoiceData =>
        let doc := { doc with
                     zimraSentDate := some now,
                     zimraRetryCount := doc.zimraRetryCount + 1 }
        let _endpoint := determineEndpoint invoiceData
        match env.response with
        | .error e =>
          (markAsFailed doc ("Exception during fiscalization: " ++ e) none, false, 1)
        | .ok responseData =>
          if responseData.isEmpty then
            (markAsFailed doc "No response received from ZIMRA server" none, false, 1)
          else
            let doc := { doc with zimraResponse := some (serializeResponses responseData) }
            let r := processZimraResponse doc responseData now
            (r.1, r.2, 1)

/-- `AccountMove.action_fiscalize_invoice`: the manual action with its
document-type, already-fiscalized and posted-state guards. -/
def amActionFiscalizeInvoice (doc : AccountMove) (env : AmEnv) (now : Nat) (todayStr : String) :
    AccountMove × Notif × Nat :=
  if !amIsInvoice doc then (doc, .invalidDocument, 0)
  else if doc.zimraStatus == .fiscalized || doc.zimraStatus == .sent then
    (doc, .alreadyFiscalized, 0)
  else if !(doc.state == "posted") then (doc, .invoiceNotPosted, 0)
  else
    let r := amSendToZimra doc env now todayStr
    (r.1, if r.2.1 then .fiscalizationSuccessful else .fiscalizationFailed, r.2.2)

/-- `AccountMove.action_retry_fiscalization`: failed/pending guard, the
5-attempt ceiling with its distinct refusal, then the manual action. -/
def amActionRetryFiscalization (doc : AccountMove) (env : AmEnv) (now : Nat) (todayStr : String) :
    AccountMove × RetryOutcome × Nat :=
  if !(doc.zimraStatus == .failed || doc.zimraStatus == .pending) then (doc, .cannotRetry, 0)
  else if 5 ≤ doc.zimraRetryCount then (doc, .retryLimitReached, 0)
  else
    let doc := { doc with zimraStatus := .pending, zimraError := none }
    let r := amActionFiscalizeInvoice doc env now todayStr
    (r.1, .attempted r.2.1, r.2.2)

/-- `AccountMove.button_draft` override: resets the ZIMRA state for
documents in `fiscalized`, `sent` or `failed` status. -/
def button_draft (doc : AccountMove) : AccountMove :=
  if doc.zimraStatus == .fiscalized || doc.zimraStatus == .sent ||
     doc.zimraStatus == .failed then
    { doc with
      zimraStatus := .pending,
      zimraFiscalNumber := none,
      zimraResponse := none,
      zimraError := none,
      zimraSentDate := none,
      zimraFiscalizedDate := none,
      zimraQrCode := none,
      zimraVerificationUrl := none,
      fiscalPdfAttachment := none,
      fiscalizedPdf := none,
      zimraRetryCount := 0 }
  else doc

/-- `AccountMove.button_cancel` override: a fiscalized document becomes
`cancelled`. -/
def button_cancel (doc : AccountMove) : AccountMove :=
  if doc.zimraStatus == .fiscalized then { doc with zimraStatus := .cancelled } else doc

/-- The invoice cron's search domain: failed, fewer than 3 retries, posted. -/
def amCronSelects (doc : AccountMove) : Bool :=
  doc.zimraStatus == .failed && doc.zimraRetryCount < 3 && doc.state == "posted"

/-- `AccountMove.cron_retry_failed_fiscalization`: the selection the cron
job resubmits. -/
def amCronRetrySelection (invoices : List AccountMove) : List AccountMove :=
  invoices.filter amCronSelects

/-! ## Concrete fixtures used by witnesses and counterexamples -/

/-- A tax mapping for the standard 15% rate. -/
def sampleTaxMapping : TaxMapping :=
  { odooTaxId := 1, zimraTaxCode := "1", zimraTaxName := "Standard rated 15%",
    zimraTaxRate := 15, zimraTaxType := "Standard rated 15%" }

/-- A USD currency mapping. -/
def sampleCurrencyMapping : CurrencyMapping :=
  { odooCurrencyId := 1, zimraCurrencyCode := "USD" }

/-- An active configuration with one tax and one currency mapping. -/
def sampleConfig : Config :=
  { name := "Main", apiUrl := "https://api.fiscalharmony.co.zw/api", apiKey := "0123456789",
    apiSecret := "secret", userId := 0, autoFiscalize := true,
    taxMappings := [sampleTaxMapping], currencyMappings := [sampleCurrencyMapping] }

/-- A configuration with no tax and no currency mappings. -/
def emptyConfig : Config :=
  { name := "Empty", apiUrl := "https://api.fiscalharmony.co.zw/api", apiKey := "0123456789",
    apiSecret := "secret", userId := 0, autoFiscalize := true,
    taxMappings := [], currencyMappings := [] }

/-- A paid, pending POS order with no lines. -/
def basePosOrder : PosOrder :=
  { name := "Shop/0001", posReference := some "Order 00001-001-0001", state := "paid",
    amountTotal := 0, amountTax := 0, currencyId := 1, partner := none, lines := [],
    zimraStatus := .pending, zimraFiscalNumber := none, zimraResponse := none,
    zimraError := none, zimraSentDate := none, zimraFiscalizedDate := none,
    zimraRetryCount := 0, zimraQrCode := none, fiscalizedPdf := none,
    zimraVerificationUrl := none, zimraAttempted := false }

/-- One plain product line. -/
def sampleInvoiceLine : InvoiceLine :=
  { displayType := "", taxIds := [1], productName := some "Widget", l10nHsCode := "",
    lineName := "Widget", quantity := 1, priceUnit := 100, priceSubtotal := 100,
    priceTotal := 115, discount := 0 }

/-- A posted, pending customer invoice with one line. -/
def baseInvoice : AccountMove :=
  { name := "INV-2025-0001", moveType := "out_invoice", state := "posted", ref := none,
    reversedEntryName := none, invoiceDate := some "2025-01-15", partner := none,
    invoiceLines := [sampleInvoiceLine], currencyId := 1, amountUntaxed := 100,
    amountTax := 15, amountTotal := 115, zimraStatus := .pending, zimraFiscalNumber := none,
    zimraResponse := none, zimraError := none, zimraSentDate := none,
    zimraFiscalizedDate := none, zimraRetryCount := 0, zimraQrCode := none,
    zimraVerificationUrl := none, fiscalizedPdf := none, fiscalPdfAttachment := none }

/-- A complete successful authority response. -/
def okResponse : ZimraResponse :=
  { error := none, fiscalDay := some "142", invoiceNumber := some "1077",
    qrData := some { fiscalDay := none, invoiceNumber := none,
                     qrCodeUrl := some "https://qr.example/x",
                     verificationCode := some "VC77" },
    fiscalInvoicePdf := some "pdf-ref-1", requestId := none, fiscalNumberField := none,
    verificationUrl := none }

/-- A rejection response carrying a provisional `RequestId`. -/
def failResponse : ZimraResponse :=
  { error := some "Device not registered", fiscalDay := none, invoiceNumber := none,
    qrData := none, fiscalInvoicePdf := none, requestId := some "R123",
    fiscalNumberField := none, verificationUrl := none }

/-- A response with an empty error but no `FiscalDay` anywhere. -/
def incompleteResponse : ZimraResponse :=
  { error := some "", fiscalDay := none, invoiceNumber := some "1077", qrData := none,
    fiscalInvoicePdf := none, requestId := none, fiscalNumberField := none,
    verificationUrl := none }

/-- A POS environment with an active configuration and a given response. -/
def posEnvWith (resp : Except String (List ZimraResponse)) : PosEnv :=
  { hasDuplicateFiscalized := false, duplicateOrderId := 0, config := some sampleConfig,
    seqName := none, response := resp }

/-- An invoice environment with the sample configuration and a response. -/
def amEnvWith (resp : Except String (List ZimraResponse)) : AmEnv :=
  { config := some sampleConfig, response := resp }

/-- The two-key object whose insertion order is not sorted. -/
def unsortedPayload : Json := .obj [("b", .num 1), ("a", .num 2)]

/-- A fiscalized invoice carrying its fiscal number. -/
def fiscalizedInvoiceFx : AccountMove :=
  { baseInvoice with zimraStatus := .fiscalized, zimraFiscalNumber := some "1077/142" }

/-- An exempted invoice. -/
def exemptedInvoiceFx : AccountMove :=
  { baseInvoice with zimraStatus := .exempted }

/-- A failed invoice at the manual retry ceiling. -/
def failedInvoice5Fx : AccountMove :=
  { baseInvoice with zimraStatus := .failed, zimraRetryCount := 5 }

/-- A failed invoice below the cron ceiling. -/
def failedInvoice1Fx : AccountMove :=
  { baseInvoice with zimraStatus := .failed, zimraRetryCount := 1 }

/-- A fiscalized POS order carrying its fiscal number. -/
def fiscalizedPosFx : PosOrder :=
  { basePosOrder with zimraStatus := .fiscalized, zimraFiscalNumber := some "1077/142" }

/-- A failed POS order at what the spec calls the manual retry ceiling. -/
def failedPos5Fx : PosOrder :=
  { basePosOrder with zimraStatus := .failed, zimraRetryCount := 5 }

/-- A failed POS order below the cron ceiling. -/
def failedPos1Fx : PosOrder :=
  { basePosOrder with zimraStatus := .failed, zimraRetryCount := 1 }

/-- The spec's document invariant, on invoices: a fiscalized document
carries a non-empty fiscal number. -/
def amFiscalNumberInvariant (doc : AccountMove) : Prop :=
  doc.zimraStatus = Status.fiscalized → ∃ v, doc.zimraFiscalNumber = some v ∧ v ≠ ""

/-- The spec's document invariant, on POS orders. -/
def posFiscalNumberInvariant (doc : PosOrder) : Prop :=
  doc.zimraStatus = Status.fiscalized → ∃ v, doc.zimraFiscalNumber = some v ∧ v ≠ ""

/-! ## Shared helper lemmas -/

/-- A string of the shape `a ++ "/" ++ b` is never empty. -/
lemma append_slash_ne_empty (a b : String) : a ++ "/" ++ b ≠ "" := by
  intro hEq
  have hl := congrArg String.length hEq
  rw [String.length_append, String.length_append] at hl
  have h1 : String.length "/" = 1 := rfl
  have h0 : String.length "" = 0 := rfl
  omega

/-- A fiscalized POS order is never eligible for (re)submission. -/
lemma posShouldFiscalize_eq_false_of_fiscalized (doc : PosOrder)
    (h : doc.zimraStatus = Status.fiscalized) : posShouldFiscalize doc = false := by
  unfold posShouldFiscalize
  simp [h]

/-- A fiscalized invoice is never eligible for (re)submission. -/
lemma amShouldFiscalize_eq_false_of_fiscalized (doc : AccountMove)
    (h : doc.zimraStatus = Status.fiscalized) : amShouldFiscalize doc = false := by
  unfold amShouldFiscalize
  split
  · rfl
  · simp [h]

/-- The core POS submission performs no network call on a fiscalized order. -/
lemma posSendToZimraCore_no_call_of_fiscalized (d : PosOrder) (env : PosEnv) (now : Nat)
    (ts : String) (h : d.zimraStatus = Status.fiscalized) :
    (posSendToZimraCore d env now ts).2.2 = 0 := by
  unfold posSendToZimraCore
  split
  · rfl
  · split
    · rfl
    · rw [posShouldFiscalize_eq_false_of_fiscalized _ h]
      rfl

/-- `_send_to_zimra` performs no network call on a fiscalized POS order. -/
lemma posSendToZimra_no_call_of_fiscalized (doc : PosOrder) (env : PosEnv) (now : Nat)
    (ts : String) (h : doc.zimraStatus = Status.fiscalized) :
    (posSendToZimra doc env now ts).2.2 = 0 := by
  unfold posSendToZimra
  split
  · rfl
  · exact posSendToZimraCore_no_call_of_fiscalized _ _ now ts (by split <;> exact h)

/-- `_send_to_zimra` performs no network call on a fiscalized invoice. -/
lemma amSendToZimra_no_call_of_fiscalized (doc : AccountMove) (env : AmEnv) (now : Nat)
    (ts : String) (h : doc.zimraStatus = Status.fiscalized) :
    (amSendToZimra doc env now ts).2.2 = 0 := by
  unfold amSendToZimra
  split
  · rfl
  · rw [amShouldFiscalize_eq_false_of_fiscalized _ h]
    rfl

/-- Whenever response processing ends `fiscalized`, the stored fiscal
number is `InvoiceNumber ++ "/" ++ FiscalDay`, which is non-empty. -/
lemma processZimraResponse_fiscalized_number (doc : AccountMove)
    (rd : List ZimraResponse) (now : Nat)
    (h : (processZimraResponse doc rd now).1.zimraStatus = Status.fiscalized) :
    ∃ v, (processZimraResponse doc rd now).1.zimraFiscalNumber = some v ∧ v ≠ "" := by
  cases rd with
  | nil => exact absurd h (by simp [processZimraResponse, markAsFailed])
  | cons resp rest =>
    by_cases hs : amIsFiscalizationSuccessful resp = true
    · by_cases hm : (resolvedFiscalDay resp == "" || resolvedInvoiceNumber resp == "") = true
      · exact absurd h (by simp [processZimraResponse, hs, hm, markAsFailed])
      · refine ⟨resolvedInvoiceNumber resp ++ "/" ++ resolvedFiscalDay resp, ?_,
          append_slash_ne_empty _ _⟩
        simp only [Bool.not_eq_true] at hm
        simp [processZimraResponse, hs, hm]
    · simp only [Bool.not_eq_true] at hs
      exact absurd h (by simp [processZimraResponse, hs, markAsFailed])

/-- The invoice submission pipeline establishes the one-way invariant
unconditionally: every terminal write is `failed`, `exempted`, or the
success write that stores `InvoiceNumber/FiscalDay`. -/
lemma amSendToZimra_invariant (doc : AccountMove) (env : AmEnv) (now : Nat) (ts : String) :
    amFiscalNumberInvariant (amSendToZimra doc env now ts).1 := by
  unfold amSendToZimra amFiscalNumberInvariant
  cases hc : env.config with
  | none =>
    intro h
    exact absurd h (by simp [markAsFailed])
  | some cfg =>
    dsimp only
    by_cases hsf : amShouldFiscalize doc = true
    · simp only [hsf, Bool.not_true, Bool.false_eq_true, if_false]
      cases hp : amPrepareInvoiceData doc cfg ts with
      | error e =>
        intro h
        exact absurd h (by simp [markAsFailed])
      | ok pl =>
        dsimp only
        cases hr : env.response with
        | error e =>
          intro h
          exact absurd h (by simp [markAsFailed])
        | ok rdata =>
          dsimp only
          by_cases hemp : rdata.isEmpty = true
          · simp only [hemp, if_true]
            intro h
            exact absurd h (by simp [markAsFailed])
          · simp only [Bool.not_eq_true] at hemp
            simp only [hemp, Bool.false_eq_true, if_false]
            exact processZimraResponse_fiscalized_number _ _ _
    · simp only [Bool.not_eq_true] at hsf
      simp only [hsf, Bool.not_false, if_true]
      intro h
      exact absurd h (by simp)

/-- The core POS submission establishes the one-way invariant
unconditionally (a fiscalized result only arises from the success write). -/
lemma posSendToZimraCore_invariant (d : PosOrder) (env : PosEnv) (now : Nat) (ts : String) :
    posFiscalNumberInvariant (posSendToZimraCore d env now ts).1 := by
  unfold posSendToZimraCore posFiscalNumberInvariant
  split
  · intro h
    exact absurd h (by simp)
  · split
    · intro h
      exact absurd h (by simp)
    · next cfg =>
      by_cases hsf : posShouldFiscalize d = true
      · simp only [hsf, Bool.not_true, Bool.false_eq_true, if_false]
        cases hr : env.response with
        | error e =>
          intro h
          exact absurd h (by simp)
        | ok rdata =>
          dsimp only
          by_cases hsc : posIsFiscalizationSuccessful rdata = true
          · simp only [hsc, if_true]
            cases rdata with
            | nil => exact absurd hsc (by simp [posIsFiscalizationSuccessful])
            | cons resp rest =>
              dsimp only
              intro h
              exact ⟨pyStr resp.invoiceNumber ++ "/" ++ pyStr resp.fiscalDay, rfl,
                append_slash_ne_empty _ _⟩
          · simp only [Bool.not_eq_true] at hsc
            simp only [hsc, Bool.false_eq_true, if_false]
            intro h
            exact absurd h (by simp)
      · simp only [Bool.not_eq_true] at hsf
        simp only [hsf, Bool.not_false, if_true]
        intro h
        exact absurd h (by simp)

/-! ## Claims -/

/-- C1 (counterexample): the invariant "fiscal number set iff status
fiscalized" is false as stated: submitting `baseInvoice` against a
rejection response carrying `RequestId "R123"` ends the operation in
status `failed` with the provisional reference stored in
`zimra_fiscal_number`. -/
theorem C1_counterexample :
    (amSendToZimra baseInvoice (amEnvWith (Except.ok [failResponse]))
        0 "2025-01-15").1.zimraStatus = Status.failed ∧
    (amSendToZimra baseInvoice (amEnvWith (Except.ok [failResponse]))
        0 "2025-01-15").1.zimraFiscalNumber = some "R123" ∧
    (amSendToZimra baseInvoice (amEnvWith (Except.ok [failResponse]))
        0 "2025-01-15").2.1 = false := by
  refine ⟨rfl, rfl, rfl⟩

/-- C1 (amended): only the forward direction of the invariant holds — a
document whose status is `fiscalized` after a submission, reset or
cancellation operation carries a non-empty fiscal number (assuming it held
before, which only the POS skip branch needs); the converse fails because
failed submissions store the authority's provisional reference. -/
theorem C1_fiscal_number_invariant (doc : AccountMove) (pdoc : PosOrder) (env : AmEnv)
    (penv : PosEnv) (now : Nat) (ts : String)
    (hinv : posFiscalNumberInvariant pdoc) :
    amFiscalNumberInvariant (amSendToZimra doc env now ts).1 ∧
    posFiscalNumberInvariant (posSendToZimra pdoc penv now ts).1 ∧
    amFiscalNumberInvariant (button_draft doc) ∧
    amFiscalNumberInvariant (button_cancel doc) := by
  refine ⟨amSendToZimra_invariant doc env now ts, ?_, ?_, ?_⟩
  · unfold posSendToZimra
    split
    · exact hinv
    · exact posSendToZimraCore_invariant _ penv now ts
  · unfold button_draft amFiscalNumberInvariant
    split
    · intro h
      exact absurd h (by simp)
    · next hcond =>
      intro h
      simp [h] at hcond
  · unfold button_cancel amFiscalNumberInvariant
    split
    · intro h
      exact absurd h (by simp)
    · next hcond =>
      intro h
      simp [h] at hcond

/-- C1 (witness): the invariant theorem applied at a fiscalized POS order
and a successful invoice submission. -/
theorem C1_witness :
    posFiscalNumberInvariant fiscalizedPosFx ∧
    amFiscalNumberInvariant
      (amSendToZimra baseInvoice (amEnvWith (Except.ok [okResponse])) 0 "2025-01-15").1 ∧
    posFiscalNumberInvariant
      (posSendToZimra fiscalizedPosFx (posEnvWith (Except.ok [okResponse])) 0 "now").1 := by
  have hinv : posFiscalNumberInvariant fiscalizedPosFx :=
    fun _ => ⟨"1077/142", rfl, by decide⟩
  have h := C1_fiscal_number_invariant baseInvoice fiscalizedPosFx
    (amEnvWith (Except.ok [okResponse])) (posEnvWith (Except.ok [okResponse]))
    0 "2025-01-15" hinv
  exact ⟨hinv, h.1, h.2.1⟩

/-- C2 (counterexample): on the POS path a response with an empty `Error`
but no `FiscalDay` is still interpreted as success: the order ends
`fiscalized` with the literal string `"None"` interpolated into the fiscal
number, not `failed`. -/
theorem C2_counterexample :
    (posSendToZimra basePosOrder (posEnvWith (Except.ok [incompleteResponse]))
        0 "now").1.zimraStatus = Status.fiscalized ∧
    (posSendToZimra basePosOrder (posEnvWith (Except.ok [incompleteResponse]))
        0 "now").1.zimraFiscalNumber = some "1077/None" := by
  refine ⟨rfl, rfl⟩

/-- C2 (amended): on the invoice path only, a response with an empty error
field but a missing/empty `FiscalDay` or `InvoiceNumber` (after the
`QrData` fallback) ends in status `failed` with the explicit
incomplete-response error, never `fiscalized`. -/
theorem C2_incomplete_response_fails_invoice_path (doc : AccountMove)
    (resp : ZimraResponse) (rest : List ZimraResponse) (now : Nat)
    (hs : amIsFiscalizationSuccessful resp = true)
    (hmiss : resolvedFiscalDay resp = "" ∨ resolvedInvoiceNumber resp = "") :
    (processZimraResponse doc (resp :: rest) now).1.zimraStatus = Status.failed ∧
    (processZimraResponse doc (resp :: rest) now).1.zimraError =
      some (incompleteResponseMsg resp) ∧
    (processZimraResponse doc (resp :: rest) now).2 = false := by
  have hm : (resolvedFiscalDay resp == "" || resolvedInvoiceNumber resp == "") = true := by
    rcases hmiss with h | h <;> simp [h]
  refine ⟨?_, ?_, ?_⟩ <;> simp [processZimraResponse, hs, hm, markAsFailed]

/-- C2 (witness): the incomplete-response theorem applied to a concrete
response with empty error and no `FiscalDay`. -/
theorem C2_witness :
    amIsFiscalizationSuccessful incompleteResponse = true ∧
    resolvedFiscalDay incompleteResponse = "" ∧
    (processZimraResponse baseInvoice [incompleteResponse] 0).1.zimraStatus =
      Status.failed ∧
    (processZimraResponse baseInvoice [incompleteResponse] 0).1.zimraError =
      some (incompleteResponseMsg incompleteResponse) ∧
    (processZimraResponse baseInvoice [incompleteResponse] 0).2 = false := by
  have h := C2_incomplete_response_fails_invoice_path baseInvoice incompleteResponse [] 0
    (by rfl) (Or.inl (by rfl))
  exact ⟨by rfl, by rfl, h.1, h.2.1, h.2.2⟩

/-- C3 (counterexample): the internal send path is not a no-op on an
already-fiscalized POS order: it re-marks the order `exempted` (changing
its status) even though it performs no network call. -/
theorem C3_counterexample :
    (posSendToZimra fiscalizedPosFx (posEnvWith (Except.ok [okResponse]))
        0 "now").1.zimraStatus = Status.exempted ∧
    (posSendToZimra fiscalizedPosFx (posEnvWith (Except.ok [okResponse]))
        0 "now").1.zimraStatus ≠ Status.fiscalized ∧
    (posSendToZimra fiscalizedPosFx (posEnvWith (Except.ok [okResponse]))
        0 "now").2.2 = 0 := by
  refine ⟨rfl, by decide, rfl⟩

/-- C3 (amended): for an already-fiscalized document the manual actions are
genuine no-ops (unchanged document, no network call), and the internal send
paths never perform a network call either — but the internal paths re-mark
the document instead of leaving it unchanged. -/
theorem C3_already_fiscalized_no_network (pdoc : PosOrder) (penv : PosEnv)
    (doc : AccountMove) (env : AmEnv) (now : Nat) (ts : String)
    (hp : pdoc.zimraStatus = Status.fiscalized)
    (ha : doc.zimraStatus = Status.fiscalized) :
    posActionFiscalizeManual pdoc penv now ts = (pdoc, Notif.alreadyFiscalized, 0) ∧
    (amActionFiscalizeInvoice doc env now ts).1 = doc ∧
    (amActionFiscalizeInvoice doc env now ts).2.2 = 0 ∧
    (posSendToZimra pdoc penv now ts).2.2 = 0 ∧
    (amSendToZimra doc env now ts).2.2 = 0 := by
  refine ⟨?_, ?_, ?_, posSendToZimra_no_call_of_fiscalized pdoc penv now ts hp,
          amSendToZimra_no_call_of_fiscalized doc env now ts ha⟩
  · unfold posActionFiscalizeManual
    simp [hp]
  · unfold amActionFiscalizeInvoice
    split
    · rfl
    · simp [ha]
  · unfold amActionFiscalizeInvoice
    split
    · rfl
    · simp [ha]

/-- C3 (witness): the no-network theorem applied at fiscalized fixtures. -/
theorem C3_witness :
    posActionFiscalizeManual fiscalizedPosFx (posEnvWith (Except.ok [okResponse])) 0 "now" =
      (fiscalizedPosFx, Notif.alreadyFiscalized, 0) ∧
    (amActionFiscalizeInvoice fiscalizedInvoiceFx (amEnvWith (Except.ok [okResponse]))
        0 "2025-01-15").1 = fiscalizedInvoiceFx ∧
    (posSendToZimra fiscalizedPosFx (posEnvWith (Except.ok [okResponse])) 0 "now").2.2 = 0 ∧
    (amSendToZimra fiscalizedInvoiceFx (amEnvWith (Except.ok [okResponse]))
        0 "2025-01-15").2.2 = 0 := by
  have h := C3_already_fiscalized_no_network fiscalizedPosFx
    (posEnvWith (Except.ok [okResponse])) fiscalizedInvoiceFx
    (amEnvWith (Except.ok [okResponse])) 0 "now" rfl rfl
  have h2 := C3_already_fiscalized_no_network fiscalizedPosFx
    (posEnvWith (Except.ok [okResponse])) fiscalizedInvoiceFx
    (amEnvWith (Except.ok [okResponse])) 0 "2025-01-15" rfl rfl
  exact ⟨h.1, h2.2.1, h.2.2.2.1, h2.2.2.2.2⟩

/-- C4 (counterexample): the POS builder performs no validation: with no
tax mappings, no currency mappings and zero line items it silently returns
a payload with an empty `LineItems` list, and the POS send path still
performs the network call. -/
theorem C4_counterexample :
    (posPrepareInvoiceData basePosOrder emptyConfig none "now").lineItems = [] ∧
    (posSendToZimra basePosOrder
      { hasDuplicateFiscalized := false, duplicateOrderId := 0, config := some emptyConfig,
        seqName := none, response := Except.ok [failResponse] } 0 "now").2.2 = 1 := by
  refine ⟨rfl, rfl⟩

/-- C4 (amended): on the invoice builder only, a configuration without tax
mappings or currency mappings, or a document resolving zero eligible line
items, raises a `ValidationError` and the invoice send path performs no
network call. -/
theorem C4_invoice_builder_validation (doc : AccountMove) (cfg : Config) (ts : String)
    (h : cfg.taxMappings = [] ∨ cfg.currencyMappings = [] ∨
         amGetLineItems doc cfg.taxMappings = []) :
    (∃ e, amPrepareInvoiceData doc cfg ts = Except.error e) ∧
    (∀ env : AmEnv, env.config = some cfg → ∀ now,
      (amSendToZimra doc env now ts).2.2 = 0) := by
  have herr : ∃ e, amPrepareInvoiceDataInner doc cfg ts = Except.error e := by
    cases hres : amPrepareInvoiceDataInner doc cfg ts with
    | error e => exact ⟨e, rfl⟩
    | ok p =>
      exfalso
      unfold amPrepareInvoiceDataInner at hres
      split at hres
      · exact Except.noConfusion hres
      · split at hres
        · exact Except.noConfusion hres
        · dsimp only at hres
          split at hres
          · exact Except.noConfusion hres
          · next h1 h2 h3 =>
            rcases h with hx | hx | hx
            · exact h1 (by simp [hx])
            · exact h2 (by simp [hx])
            · exact h3 (by simp [hx])
  obtain ⟨e, he⟩ := herr
  have hwrap : amPrepareInvoiceData doc cfg ts =
      Except.error ("Failed to prepare  data for invoice " ++ doc.name ++ ": " ++ e) := by
    unfold amPrepareInvoiceData
    rw [he]
  refine ⟨⟨_, hwrap⟩, ?_⟩
  intro env henv now
  unfold amSendToZimra
  rw [henv]
  dsimp only
  by_cases hsf : amShouldFiscalize doc = true
  · simp only [hsf, Bool.not_true, Bool.false_eq_true, if_false]
    rw [hwrap]
  · simp only [Bool.not_eq_true] at hsf
    simp only [hsf, Bool.not_false, if_true]

/-- C4 (witness): the validation theorem applied at a configuration with
no mappings. -/
theorem C4_witness :
    (emptyConfig.taxMappings = [] ∨ emptyConfig.currencyMappings = [] ∨
      amGetLineItems baseInvoice emptyConfig.taxMappings = []) ∧
    (∃ e, amPrepareInvoiceData baseInvoice emptyConfig "2025-01-15" = Except.error e) ∧
    (amSendToZimra baseInvoice
      { config := some emptyConfig, response := Except.ok [okResponse] }
      0 "2025-01-15").2.2 = 0 := by
  have h := C4_invoice_builder_validation baseInvoice emptyConfig "2025-01-15" (Or.inl rfl)
  exact ⟨Or.inl rfl, h.1,
    h.2 { config := some emptyConfig, response := Except.ok [okResponse] } rfl 0⟩

/-- C5 (counterexample): the POS manual retry has no retry-count ceiling: a
failed order at retry count 5 is retried anyway (no retry-limit refusal)
and a network submission is performed. -/
theorem C5_counterexample :
    (posActionRetryFiscalization failedPos5Fx (posEnvWith (Except.ok [failResponse]))
        0 "now").2.1 = RetryOutcome.attempted Notif.fiscalizationFailed ∧
    (posActionRetryFiscalization failedPos5Fx (posEnvWith (Except.ok [failResponse]))
        0 "now").2.1 ≠ RetryOutcome.retryLimitReached ∧
    (posActionRetryFiscalization failedPos5Fx (posEnvWith (Except.ok [failResponse]))
        0 "now").2.2 = 1 := by
  refine ⟨rfl, by decide, rfl⟩

/-- C5 (amended): the 5-attempt manual ceiling with its distinct refusal
exists on invoices only (POS manual retry checks just the failed status);
both cron jobs select exactly the failed documents with retry count below
3 (invoices additionally posted). -/
theorem C5_retry_ceilings (doc : AccountMove) (env : AmEnv) (now : Nat) (ts : String)
    (invoices : List AccountMove) (orders : List PosOrder) :
    (doc.zimraStatus = Status.failed → 5 ≤ doc.zimraRetryCount →
      amActionRetryFiscalization doc env now ts = (doc, RetryOutcome.retryLimitReached, 0)) ∧
    (doc.zimraStatus = Status.failed → doc.zimraRetryCount < 5 →
      ∃ n, (amActionRetryFiscalization doc env now ts).2.1 = RetryOutcome.attempted n) ∧
    (∀ d ∈ amCronRetrySelection invoices,
      d.zimraStatus = Status.failed ∧ d.zimraRetryCount < 3 ∧ d.state = "posted") ∧
    (∀ d ∈ invoices, d.zimraStatus = Status.failed → d.zimraRetryCount < 3 →
      d.state = "posted" → d ∈ amCronRetrySelection invoices) ∧
    (∀ d ∈ posCronRetrySelection orders,
      d.zimraStatus = Status.failed ∧ d.zimraRetryCount < 3) ∧
    (∀ d ∈ orders, d.zimraStatus = Status.failed → d.zimraRetryCount < 3 →
      d ∈ posCronRetrySelection orders) := by
  refine ⟨?_, ?_, ?_, ?_, ?_, ?_⟩
  · intro hs hc
    unfold amActionRetryFiscalization
    simp [hs, hc]
  · intro hs hc
    unfold amActionRetryFiscalization
    simp [hs, Nat.not_le.mpr hc]
  · intro d hd
    unfold amCronRetrySelection at hd
    rw [List.mem_filter] at hd
    have hsel := hd.2
    unfold amCronSelects at hsel
    simp at hsel
    exact ⟨hsel.1.1, hsel.1.2, hsel.2⟩
  · intro d hd h1 h2 h3
    unfold amCronRetrySelection
    rw [List.mem_filter]
    exact ⟨hd, by unfold amCronSelects; simp [h1, h2, h3]⟩
  · intro d hd
    unfold posCronRetrySelection at hd
    rw [List.mem_filter] at hd
    have hsel := hd.2
    unfold posCronSelects at hsel
    simp at hsel
    exact hsel
  · intro d hd h1 h2
    unfold posCronRetrySelection
    rw [List.mem_filter]
    exact ⟨hd, by unfold posCronSelects; simp [h1, h2]⟩

/-- C5 (witness): the ceilings theorem applied at the fixtures: refusal at
count 5, attempt below the ceiling, and the cron selections. -/
theorem C5_witness :
    amActionRetryFiscalization failedInvoice5Fx (amEnvWith (Except.ok [okResponse]))
      0 "2025-01-15" = (failedInvoice5Fx, RetryOutcome.retryLimitReached, 0) ∧
    (∃ n, (amActionRetryFiscalization failedInvoice1Fx (amEnvWith (Except.ok [okResponse]))
      0 "2025-01-15").2.1 = RetryOutcome.attempted n) ∧
    failedInvoice1Fx ∈ amCronRetrySelection [failedInvoice1Fx] ∧
    failedPos1Fx ∈ posCronRetrySelection [failedPos1Fx] := by
  have h5 := C5_retry_ceilings failedInvoice5Fx (amEnvWith (Except.ok [okResponse]))
    0 "2025-01-15" [failedInvoice1Fx] [failedPos1Fx]
  have h1 := C5_retry_ceilings failedInvoice1Fx (amEnvWith (Except.ok [okResponse]))
    0 "2025-01-15" [failedInvoice1Fx] [failedPos1Fx]
  refine ⟨h5.1 rfl (by decide), h1.2.1 rfl (by decide), ?_, ?_⟩
  · exact h1.2.2.2.1 failedInvoice1Fx (by simp) rfl (by decide) rfl
  · exact h1.2.2.2.2.2 failedPos1Fx (by simp) rfl (by decide)

/-- C6 (counterexample): the transmitted body is NOT canonical
sorted-keys JSON: for the object inserted as `b` then `a`, the body keeps
insertion order and differs from the sorted-keys encoding
(`__encode_data`, which the signed-request path never uses). -/
theorem C6_counterexample :
    (makeSignedRequest sampleConfig unsortedPayload).transmittedBody =
      "\x7b\"b\":1,\"a\":2\x7d" ∧
    encode_data unsortedPayload = "\x7b\"a\":2,\"b\":1\x7d" ∧
    (makeSignedRequest sampleConfig unsortedPayload).transmittedBody ≠
      encode_data unsortedPayload := by
  refine ⟨by decide, by decide, by decide⟩

/-- C6 (amended): for every signed request the body is compact
(no-whitespace) JSON in insertion order, the `X-Api-Signature` header is
base64 of the HMAC-SHA256 of the API secret over exactly the transmitted
body bytes, and recomputing the signature over an equal body is
deterministic. -/
theorem C6_signed_request_properties (cfg : Config) (data : Json) (s b1 b2 : String) :
    (makeSignedRequest cfg data).headers.xApiSignature =
      some (signPayload cfg.apiSecret (makeSignedRequest cfg data).transmittedBody) ∧
    (makeSignedRequest cfg data).transmittedBody = dumpsCompact data ∧
    signPayload cfg.apiSecret (makeSignedRequest cfg data).transmittedBody =
      base64 (hmacSha256 (utf8Bytes cfg.apiSecret)
                         (utf8Bytes (makeSignedRequest cfg data).transmittedBody)) ∧
    (b1 = b2 → signPayload s b1 = signPayload s b2) := by
  refine ⟨rfl, rfl, rfl, ?_⟩
  intro h
  rw [h]

/-- C6 (witness): the signing theorem applied at a concrete secret and
equal bodies. -/
theorem C6_witness :
    ("payload" : String) = "payload" ∧
    signPayload "secret" "payload" = signPayload "secret" "payload" ∧
    (makeSignedRequest sampleConfig unsortedPayload).transmittedBody =
      dumpsCompact unsortedPayload := by
  have h := C6_signed_request_properties sampleConfig unsortedPayload "secret"
    "payload" "payload"
  exact ⟨rfl, h.2.2.2 rfl, h.2.1⟩

/-- C7 (counterexample): `button_draft` resets an already-fiscalized
document back to `pending` (clearing its fiscal number), although the claim
forbids reset from `fiscalized`; and it leaves an `exempted` document
untouched, although the claim requires every terminal state except
`fiscalized`/`cancelled` to be resettable. -/
theorem C7_counterexample :
    (button_draft fiscalizedInvoiceFx).zimraStatus = Status.pending ∧
    (button_draft fiscalizedInvoiceFx).zimraFiscalNumber = none ∧
    button_draft exemptedInvoiceFx = exemptedInvoiceFx := by
  refine ⟨rfl, rfl, rfl⟩

/-- C7 (amended): the reset applies exactly to the statuses `fiscalized`,
`sent` and `failed` — those return to `pending` with the fiscal number,
response, error, timestamps and retry count cleared — and leaves
`pending`, `cancelled` and `exempted` documents untouched. -/
theorem C7_reset_characterization (doc : AccountMove) :
    ((doc.zimraStatus = Status.fiscalized ∨ doc.zimraStatus = Status.sent ∨
      doc.zimraStatus = Status.failed) →
      (button_draft doc).zimraStatus = Status.pending ∧
      (button_draft doc).zimraFiscalNumber = none ∧
      (button_draft doc).zimraResponse = none ∧
      (button_draft doc).zimraError = none ∧
      (button_draft doc).zimraSentDate = none ∧
      (button_draft doc).zimraFiscalizedDate = none ∧
      (button_draft doc).zimraRetryCount = 0) ∧
    ((doc.zimraStatus = Status.pending ∨ doc.zimraStatus = Status.cancelled ∨
      doc.zimraStatus = Status.exempted) →
      button_draft doc = doc) := by
  constructor
  · intro h
    have hb : (doc.zimraStatus == Status.fiscalized || doc.zimraStatus == Status.sent ||
               doc.zimraStatus == Status.failed) = true := by
      rcases h with h | h | h <;> simp [h]
    simp [button_draft, hb]
  · intro h
    have hb : (doc.zimraStatus == Status.fiscalized || doc.zimraStatus == Status.sent ||
               doc.zimraStatus == Status.failed) = false := by
      rcases h with h | h | h <;> simp [h]
    simp [button_draft, hb]

/-- C7 (witness): the characterization applied at a failed and at a
cancelled document. -/
theorem C7_witness :
    (button_draft failedInvoice5Fx).zimraStatus = Status.pending ∧
    (button_draft failedInvoice5Fx).zimraRetryCount = 0 ∧
    button_draft (button_cancel fiscalizedInvoiceFx) = button_cancel fiscalizedInvoiceFx := by
  have hf := (C7_reset_characterization failedInvoice5Fx).1 (Or.inr (Or.inr rfl))
  have hc := (C7_reset_characterization (button_cancel fiscalizedInvoiceFx)).2
    (Or.inr (Or.inl rfl))
  exact ⟨hf.1, hf.2.2.2.2.2.2, hc⟩

/-- C8 (confirmed): `normalize_tax_type` agrees with the spec's
description — exact match, then case-insensitive match, then the substring
heuristics ("standard"/"15" → standard rated, "zero"/"0%" → zero rated,
"exempt" → exempt, "withholding" → withholding) — and always lands in the
four-value category set, defaulting to `Exempt`. -/
theorem C8_normalize_tax_type_spec (s : String) :
    normalize_tax_type s = normalizeTaxTypeClaim s ∧
    normalize_tax_type s ∈ validTaxTypes := by
  have htable : ∀ p ∈ taxNameTable, p.2 ∈ validTaxTypes := by decide
  have hexact : ∀ v, exactTaxMatch s = some v → v ∈ validTaxTypes := by
    intro v hE
    unfold exactTaxMatch at hE
    cases hf : taxNameTable.find? (fun p => p.1 == s) with
    | none => rw [hf] at hE; simp at hE
    | some p =>
      rw [hf] at hE
      simp at hE
      exact hE ▸ htable p (List.mem_of_find?_eq_some hf)
  have hci : ∀ v, ciTaxMatch s = some v → v ∈ validTaxTypes := by
    intro v hE
    unfold ciTaxMatch at hE
    cases hf : taxNameTable.find? (fun p => lowerStrip p.1 == lowerStrip s) with
    | none => rw [hf] at hE; simp at hE
    | some p =>
      rw [hf] at hE
      simp at hE
      exact hE ▸ htable p (List.mem_of_find?_eq_some hf)
  constructor
  · unfold normalize_tax_type normalizeTaxTypeClaim
    cases hE : exactTaxMatch s with
    | some v => rfl
    | none =>
      cases hC : ciTaxMatch s with
      | some v => rfl
      | none =>
        dsimp only
        cases h1 : hasSub (lowerStrip s) "15" <;>
          cases h2 : hasSub (lowerStrip s) "standard" <;>
            simp [h1, h2]
  · unfold normalize_tax_type
    cases hE : exactTaxMatch s with
    | some v => exact hexact v hE
    | none =>
      cases hC : ciTaxMatch s with
      | some v => exact hci v hC
      | none =>
        dsimp only
        repeat' split
        all_goals decide

/-- C9 (confirmed): `send_fiscal_data` on a payload whose `Reference` is a
string starting with `Shop/` returns the skipped-status result and performs
no HTTP request and no status poll. -/
theorem C9_shop_reference_skipped (cfg : Config) (fields : List (String × Json))
    (tok r : String)
    (href : (fields.find? (fun p => p.1 == "Reference")).map (fun p => p.2) =
            some (Json.str r))
    (hpre : startsWithS r "Shop/" = true) :
    send_fiscal_data cfg (.obj fields) tok = (SendOutcome.skipped "Shop reference", 0) := by
  unfold send_fiscal_data
  dsimp only
  rw [href]
  dsimp only
  rw [hpre]
  simp

/-- C9 (witness): the skip theorem applied at a concrete `Shop/` payload. -/
theorem C9_witness :
    ((([("Reference", Json.str "Shop/0001"), ("InvoiceId", Json.str "X")] :
        List (String × Json)).find? (fun p => p.1 == "Reference")).map (fun p => p.2) =
      some (Json.str "Shop/0001")) ∧
    startsWithS "Shop/0001" "Shop/" = true ∧
    send_fiscal_data sampleConfig
      (.obj [("Reference", Json.str "Shop/0001"), ("InvoiceId", Json.str "X")]) "tok" =
      (SendOutcome.skipped "Shop reference", 0) :=
  ⟨by rfl, by rfl,
   C9_shop_reference_skipped sampleConfig
     [("Reference", Json.str "Shop/0001"), ("InvoiceId", Json.str "X")]
     "tok" "Shop/0001" (by rfl) (by rfl)⟩

/-- C10 (confirmed): the POS line-item builder's proportional allocation
never divides by zero — the denominator is replaced by 1 whenever the sum
of product-line subtotals is zero — and the builder is total, emitting one
item per product line for every line configuration. -/
theorem C10_discount_allocation_total (tms : List TaxMapping) (lines : List PosLine) :
    totalBeforeDiscount (posProductLines lines) ≠ 0 ∧
    (posGetLineItems tms lines).length = (posProductLines lines).length := by
  constructor
  · unfold totalBeforeDiscount
    dsimp only
    split
    · exact one_ne_zero
    · next h => exact h
  · unfold posGetLineItems
    dsimp only
    exact List.length_map _ _

end ZimraSpec
